import Mathlib

/-!
Verification development for the event-ticket sales backend.

The definitions below are a shallow embedding of the order–payment–ticket
lifecycle orchestrator:

* `OrdersService` (src/src/modules/orders/orders.service.ts):
  `create`, `updateStatus`, `cancel`, `expireOrders`;
* `PaymentService` (webhook orchestration): `processWebhook`,
  `mapPaymentStatusToOrderStatus`;
* `TicketsService` (src/src/modules/tickets/tickets.service.ts):
  `generateTicketsForOrder`, `generateSeatNumber`, `batchCancelTickets`,
  `validateTicket`, `checkInTicket`.

Modelling conventions:
* The relational store is explicit state (`St`): lists of order, payment and
  ticket rows plus the single event the claims quantify over (its
  `quota` counter and booking-relevant fields).
* Machine timestamps are abstract `Nat` instants passed as a `now` parameter.
* UUID/random generation is replaced by deterministic counters in the state
  (`nextOrderId`, `nextTicketNumber`); a webhook `external_id` is modelled as
  `Option Nat` where `none` stands for a string that fails the UUID-format
  check (the provider's test pings) and `some oid` for a well-formed id.
* External side effects (QR files, PDF files, ticket rows inserted, email
  dispatch attempts) are counted in an `Effects` record; repository writes are
  modelled as infallible, the payment-gateway call during order creation is
  fallible (`gatewayOk`).
* The `user` and `event` relations of an order are modelled as always loaded
  (the order row carries the user snapshot), matching the happy-path joins.
-/

namespace EventTickets

/-- Order lifecycle states (src/common/enums/order.enums, as used by the services). -/
inductive OrderStatus
  | pending
  | awaiting_payment
  | paid
  | cancelled
  | expired
deriving DecidableEq, Repr

/-- Payment states (src/common/enums/payment.enums, as used by the services). -/
inductive PaymentStatus
  | pending
  | paid
  | expired
  | failed
deriving DecidableEq, Repr

/-- Ticket states (src/entities/ticket.entity, as used by TicketsService). -/
inductive TicketStatus
  | active
  | used
  | cancelled
deriving DecidableEq, Repr

/-- Status vocabulary of the provider webhook (status-xendit.enum); any value
other than the three recognized ones falls into the unhandled default. -/
inductive XenditWebhookStatus
  | PAID
  | EXPIRED
  | PENDING
  | UNRECOGNIZED
deriving DecidableEq, Repr

/-- Error taxonomy of the services (Nest exception classes). -/
inductive Err
  | notFound (msg : String)
  | badRequest (msg : String)
  | forbidden (msg : String)
  | unauthorized (msg : String)
deriving DecidableEq, Repr

/-- True exactly for the `BadRequestException` arm. -/
def Err.isBadRequest : Err → Bool
  | .badRequest _ => true
  | _ => false

/-- A ticket row (src/entities/ticket.entity fields used by TicketsService). -/
structure Ticket where
  id : Nat
  ticketNumber : Nat
  seatNumber : String
  orderId : Nat
  attendeeName : Option String
  attendeeEmail : Option String
  status : TicketStatus
  checkedIn : Bool
  checkedInAt : Option Nat
  checkedInBy : Option String
  qrCodeUrl : Option String
  pdfUrl : Option String
  cancelledAt : Option Nat
  notes : Option String
  paidAt : Option Nat
deriving DecidableEq, Repr

/-- An order row, with the owning user's snapshot inlined (the `user` relation). -/
structure Order where
  id : Nat
  userId : String
  userEmail : String
  userName : Option String
  quantity : Nat
  status : OrderStatus
  expiredAt : Nat
deriving DecidableEq, Repr

/-- A payment row (1:1 with its order). -/
structure Payment where
  orderId : Nat
  status : PaymentStatus
  paidAt : Option Nat
  paymentMethod : Option String
deriving DecidableEq, Repr

/-- The relational state: the one event the claims quantify over plus the
order/payment/ticket tables and the id supplies. -/
structure St where
  quota : Int
  eventPublished : Bool
  eventStart : Option Nat
  orders : List Order
  payments : List Payment
  tickets : List Ticket
  nextOrderId : Nat
  nextTicketNumber : Nat
deriving DecidableEq, Repr

/-- Counters of external side effects performed by an operation. -/
structure Effects where
  qrFiles : Nat
  pdfFiles : Nat
  ticketRows : Nat
  paidEmails : Nat
  createdEmails : Nat
  cancelledEmails : Nat
  expiredEmails : Nat
deriving DecidableEq, Repr

/-- No side effects. -/
def noEff : Effects := ⟨0, 0, 0, 0, 0, 0, 0⟩

/-- Pointwise sum of effect counters. -/
def addEff (a b : Effects) : Effects :=
  ⟨a.qrFiles + b.qrFiles, a.pdfFiles + b.pdfFiles, a.ticketRows + b.ticketRows,
   a.paidEmails + b.paidEmails, a.createdEmails + b.createdEmails,
   a.cancelledEmails + b.cancelledEmails, a.expiredEmails + b.expiredEmails⟩

/-- The returned value of a service call, or the exception it threw. -/
inductive CallResult (α : Type)
  | ok (val : α)
  | error (e : Err)
deriving DecidableEq, Repr

/-- True exactly when the call returned normally. -/
def CallResult.isOk {α : Type} : CallResult α → Bool
  | .ok _ => true
  | .error _ => false

/-- True exactly when the call threw a `BadRequestException`. -/
def resultIsBadRequest {α : Type} : CallResult α → Bool
  | .error (.badRequest _) => true
  | _ => false

/-- Result of a service call: the returned value or thrown exception, the
state after the call, and the external effects it performed. -/
structure Res (α : Type) where
  result : CallResult α
  st : St
  eff : Effects
deriving DecidableEq, Repr

/-- `orderRepository.findOne({where: {id}})`. -/
def findOrder (s : St) (id : Nat) : Option Order :=
  s.orders.find? (fun o => o.id == id)

/-- `orderRepository.save(order)`: replace the row with the same id. -/
def saveOrder (s : St) (o : Order) : St :=
  { s with orders := s.orders.map (fun x => if x.id == o.id then o else x) }

/-- `orderRepository.delete({id})`. -/
def deleteOrder (s : St) (id : Nat) : St :=
  { s with orders := s.orders.filter (fun x => x.id != id) }

/-- `paymentRepository.findOne({where: {orderId}})`. -/
def findPayment (s : St) (oid : Nat) : Option Payment :=
  s.payments.find? (fun p => p.orderId == oid)

/-- `paymentRepository.save(payment)`. -/
def savePayment (s : St) (p : Payment) : St :=
  { s with payments := s.payments.map (fun x => if x.orderId == p.orderId then p else x) }

/-- `ticketRepository.find({where: {orderId}})`. -/
def ticketsOf (s : St) (oid : Nat) : List Ticket :=
  s.tickets.filter (fun t => t.orderId == oid)

/-- `ticketRepository.findOne({where: {id}})`. -/
def findTicket (s : St) (tid : Nat) : Option Ticket :=
  s.tickets.find? (fun t => t.id == tid)

/-- `ticketRepository.save(ticket)` for an existing row. -/
def saveTicket (s : St) (t : Ticket) : St :=
  { s with tickets := s.tickets.map (fun x => if x.id == t.id then t else x) }

/-- Rendering of an `OrderStatus` enum value (the TS enum's string value). -/
def statusName : OrderStatus → String
  | .pending => "pending"
  | .awaiting_payment => "awaiting_payment"
  | .paid => "paid"
  | .cancelled => "cancelled"
  | .expired => "expired"

/-- `TicketsService.generateSeatNumber` (tickets.service.ts 127-132):
section letter advances every 100 seats, row every 10, seat cycles 1-10. -/
def generateSeatNumber (index : Nat) : String :=
  String.singleton (Char.ofNat (65 + index / 100)) ++
    toString (index % 100 / 10 + 1) ++ "-" ++ toString (index % 10 + 1)

/-- `TicketsService.batchCancelTickets` (tickets.service.ts 322-335). -/
def batchCancelTickets (ids : List Nat) (reason : String) (now : Nat) (s : St) : St :=
  { s with tickets := s.tickets.map (fun t =>
      if ids.contains t.id then
        { t with status := TicketStatus.cancelled, cancelledAt := some now,
                 notes := some reason }
      else t) }

/-- One freshly fabricated ticket row for batch index `i` of order `o`
(ticket number drawn from the deterministic supply `tn`); the QR artifact is
written before the row is saved, the PDF reference is filled in by the second
save in `generateTicketsForOrder`. -/
def mkTicket (o : Order) (tn : Nat) (i : Nat) (now : Nat) : Ticket :=
  { id := tn
    ticketNumber := tn
    seatNumber := generateSeatNumber i
    orderId := o.id
    attendeeName := o.userName
    attendeeEmail := some o.userEmail
    status := TicketStatus.active
    checkedIn := false
    checkedInAt := none
    checkedInBy := none
    qrCodeUrl := some ("qr-" ++ toString tn ++ ".png")
    pdfUrl := none
    cancelledAt := none
    notes := none
    paidAt := some now }

/-- External effects of fabricating a batch of `q` tickets: one QR file, one
PDF file and one inserted row per ticket. -/
def genEff (q : Nat) : Effects :=
  { noEff with qrFiles := q, pdfFiles := q, ticketRows := q }

/-- One paid-confirmation email dispatch attempt. -/
def paidEmailEff : Effects := { noEff with paidEmails := 1 }

/-- The batch of tickets fabricated for order `o` from supply position `base`,
after the PDF pass has filled in the artifact reference. -/
def freshTickets (o : Order) (base : Nat) (now : Nat) : List Ticket :=
  (List.range o.quantity).map (fun i =>
    { mkTicket o (base + i) i now with
        pdfUrl := some ("ticket-" ++ toString (base + i) ++ ".pdf") })

/-- `TicketsService.generateTicketsForOrder` (tickets.service.ts 43-119):
look the order up, return the existing tickets unchanged when any exist,
otherwise fabricate `order.quantity` rows (QR file each), persist them, then
generate one PDF per row and persist the references. -/
def generateTicketsForOrder (orderId : Nat) (now : Nat) (s : St) : Res (List Ticket) :=
  match findOrder s orderId with
  | none => ⟨.error (.notFound "Order not found"), s, noEff⟩
  | some o =>
    let existing := ticketsOf s orderId
    if existing.length > 0 then
      ⟨.ok existing, s, noEff⟩
    else
      let made := freshTickets o s.nextTicketNumber now
      ⟨.ok made,
       { s with tickets := s.tickets ++ made,
                nextTicketNumber := s.nextTicketNumber + o.quantity },
       genEff o.quantity⟩

/-- `OrdersService.updateStatus` (orders.service.ts 357-509): idempotency
guard on equal status; quota restore plus batch ticket cancel when moving to
cancelled/expired from a pre-payment status; ticket generation (when the
loaded relation is empty) and a paid-confirmation email attempt on the edge
into paid. -/
def updateStatus (id : Nat) (target : OrderStatus) (now : Nat) (s : St) : Res Order :=
  match findOrder s id with
  | none => ⟨.error (.notFound "Order not found"), s, noEff⟩
  | some order =>
    if order.status = target then
      ⟨.ok order, s, noEff⟩
    else
      let oldStatus := order.status
      let order1 : Order := { order with status := target }
      let orderTickets := ticketsOf s id
      let s1 :=
        if (target = OrderStatus.cancelled ∨ target = OrderStatus.expired) ∧
           (oldStatus = OrderStatus.pending ∨ oldStatus = OrderStatus.awaiting_payment) then
          let sQ : St := { s with quota := s.quota + order.quantity }
          if orderTickets.length > 0 then
            batchCancelTickets (orderTickets.map (fun t => t.id))
              ("Order " ++ statusName target) now sQ
          else sQ
        else s
      let s2 := saveOrder s1 order1
      if target = OrderStatus.paid ∧ oldStatus ≠ OrderStatus.paid then
        let g : Res (List Ticket) :=
          if orderTickets.length = 0 then generateTicketsForOrder id now s2
          else ⟨.ok orderTickets, s2, noEff⟩
        match g.result with
        | .error _ => ⟨.ok order1, g.st, g.eff⟩
        | .ok _ => ⟨.ok order1, g.st, addEff g.eff paidEmailEff⟩
      else
        ⟨.ok order1, s2, noEff⟩

/-- `PaymentService.mapPaymentStatusToOrderStatus` (payments service 306-320). -/
def mapPaymentStatusToOrderStatus : PaymentStatus → OrderStatus
  | .paid => .paid
  | .expired => .expired
  | .failed => .cancelled
  | .pending => .pending

/-- The webhook payload (`PaymentWebhookDto`); `externalId = none` models an
`external_id` string that fails the UUID-format check. -/
structure PaymentWebhookDto where
  id : String
  externalId : Option Nat
  status : XenditWebhookStatus
  payment_method : Option String
  paid_at : Option Nat
deriving DecidableEq, Repr

/-- Translation of the provider's webhook status (payments service 346-361);
`none` is the unhandled default that makes the webhook a no-op. -/
def mapWebhookStatus : XenditWebhookStatus → Option PaymentStatus
  | .PAID => some .paid
  | .EXPIRED => some .expired
  | .PENDING => some .pending
  | .UNRECOGNIZED => none

/-- `PaymentService.processWebhook` (payments service 322-417): shared-secret
token check first, UUID-format check, status translation, payment row
refresh, order transition through `updateStatus`, and on PAID a second
(idempotent) ticket-generation call whose failure is only logged. -/
def processWebhook (webhookToken : String) (payload : PaymentWebhookDto)
    (callbackToken : String) (now : Nat) (s : St) : Res Unit :=
  if callbackToken ≠ webhookToken then
    ⟨.error (.unauthorized "Invalid token"), s, noEff⟩
  else
    match payload.externalId with
    | none => ⟨.ok (), s, noEff⟩
    | some oid =>
      match mapWebhookStatus payload.status with
      | none => ⟨.ok (), s, noEff⟩
      | some newPaymentStatus =>
        match findOrder s oid with
        | none => ⟨.ok (), s, noEff⟩
        | some _ =>
          let s1 :=
            match findPayment s oid with
            | none => s
            | some payment =>
              let p1 := { payment with status := newPaymentStatus }
              let p2 :=
                if newPaymentStatus = PaymentStatus.paid then
                  { p1 with paidAt := some now,
                            paymentMethod := some (payload.payment_method.getD "Unknown") }
                else p1
              savePayment s p2
          let r := updateStatus oid (mapPaymentStatusToOrderStatus newPaymentStatus) now s1
          match r.result with
          | .error e => ⟨.error e, r.st, r.eff⟩
          | .ok _ =>
            if newPaymentStatus = PaymentStatus.paid then
              let g := generateTicketsForOrder oid now r.st
              ⟨.ok (), g.st, addEff r.eff g.eff⟩
            else
              ⟨.ok (), r.st, r.eff⟩

/-- `OrdersService.create` (orders.service.ts 63-215) specialised to the one
event of the model: event validation, quota guard and decrement, order row
insert, fallible gateway/payment creation with compensating rollback
(restore quota, delete the order row), then a best-effort created email. -/
def createOrder (userId userEmail : String) (userName : Option String)
    (quantity : Nat) (gatewayOk : Bool) (now : Nat) (s : St) : Res Nat :=
  if s.eventPublished = false then
    ⟨.error (.badRequest "Event is not available for booking"), s, noEff⟩
  else if (match s.eventStart with | some t => decide (t < now) | none => false) then
    ⟨.error (.badRequest "Event has already passed"), s, noEff⟩
  else if s.quota < (quantity : Int) then
    ⟨.error (.badRequest "Only N tickets available"), s, noEff⟩
  else
    let oid := s.nextOrderId
    let order : Order :=
      { id := oid, userId := userId, userEmail := userEmail, userName := userName,
        quantity := quantity, status := OrderStatus.pending, expiredAt := now + 3600 }
    let s1 : St := { s with orders := s.orders ++ [order], nextOrderId := s.nextOrderId + 1 }
    let s2 : St := { s1 with quota := s1.quota - quantity }
    if gatewayOk then
      let payment : Payment :=
        { orderId := oid, status := PaymentStatus.pending, paidAt := none,
          paymentMethod := none }
      let s3 : St := { s2 with payments := s2.payments ++ [payment] }
      ⟨.ok oid, s3, { noEff with createdEmails := 1 }⟩
    else
      let s3 : St := { s2 with quota := s2.quota + quantity }
      ⟨.error (.badRequest "Failed to create invoice/payment"), deleteOrder s3 oid, noEff⟩

/-- `OrdersService.cancel` (orders.service.ts 582-623): ownership check,
pre-payment status check, paid-payment check, then the cancelled transition
through `updateStatus` and a best-effort cancelled email. -/
def cancel (id : Nat) (userId : String) (now : Nat) (s : St) : Res String :=
  match findOrder s id with
  | none => ⟨.error (.notFound "Order not found"), s, noEff⟩
  | some order =>
    if order.userId ≠ userId then
      ⟨.error (.forbidden "You do not have permission to cancel this order"), s, noEff⟩
    else if order.status ≠ OrderStatus.pending ∧
            order.status ≠ OrderStatus.awaiting_payment then
      ⟨.error (.badRequest ("Cannot cancel order with status " ++ statusName order.status)),
       s, noEff⟩
    else if (match findPayment s id with
             | some p => decide (p.status = PaymentStatus.paid)
             | none => false) then
      ⟨.error (.badRequest "Cannot cancel a paid order"), s, noEff⟩
    else
      let r := updateStatus id OrderStatus.cancelled now s
      match r.result with
      | .error e => ⟨.error e, r.st, r.eff⟩
      | .ok _ =>
        ⟨.ok "Order cancelled successfully", r.st,
         addEff r.eff { noEff with cancelledEmails := 1 }⟩

/-- One iteration of the expiry sweep: drive the order through the expired
transition; an error is caught and logged (the loop continues), success adds
a best-effort expired-email attempt. -/
def expireStep (now : Nat) (acc : St × Effects) (o : Order) : St × Effects :=
  let r := updateStatus o.id OrderStatus.expired now acc.1
  match r.result with
  | .error _ => (r.st, addEff acc.2 r.eff)
  | .ok _ => (r.st, addEff (addEff acc.2 r.eff) { noEff with expiredEmails := 1 })

/-- `OrdersService.expireOrders` (orders.service.ts 625-661): select the
pending orders past their deadline, drive each through the expired
transition with per-item error isolation, best-effort expired email each. -/
def expireOrders (now : Nat) (s : St) : Res Nat :=
  let expiredList := s.orders.filter
    (fun o => o.status == OrderStatus.pending && decide (o.expiredAt < now))
  let out := expiredList.foldl (expireStep now) (s, noEff)
  ⟨.ok expiredList.length, out.1, out.2⟩

/-- Outcome of `TicketsService.validateTicket` (tickets.service.ts 256-298). -/
inductive ValidateOutcome
  | ticketMissing
  | wrongStatus (status : TicketStatus)
  | alreadyUsed
  | valid
deriving DecidableEq, Repr

/-- `TicketsService.validateTicket`: not found, non-active status, already
checked in, else valid. -/
def validateTicket (s : St) (tid : Nat) : ValidateOutcome :=
  match findTicket s tid with
  | none => .ticketMissing
  | some t =>
    if t.status ≠ TicketStatus.active then .wrongStatus t.status
    else if t.checkedIn then .alreadyUsed
    else .valid

/-- The `message` string of a validation outcome. -/
def validateMessage : ValidateOutcome → String
  | .ticketMissing => "Ticket not found"
  | .wrongStatus st => "Ticket is " ++ (match st with
      | .active => "active" | .used => "used" | .cancelled => "cancelled")
  | .alreadyUsed => "Ticket has already been used"
  | .valid => "Ticket is valid"

/-- `TicketsService.checkInTicket` (tickets.service.ts 300-320): validate,
reject with `BadRequest` when invalid, otherwise mark checked in (time,
actor) and flip the status to used. -/
def checkInTicket (tid : Nat) (checkedInBy : String) (now : Nat) (s : St) : Res Ticket :=
  let v := validateTicket s tid
  if v ≠ ValidateOutcome.valid then
    ⟨.error (.badRequest (validateMessage v)), s, noEff⟩
  else
    match findTicket s tid with
    | none => ⟨.error (.notFound "Ticket not found"), s, noEff⟩
    | some t =>
      let t1 : Ticket :=
        { t with checkedIn := true, checkedInAt := some now,
                 checkedInBy := some checkedInBy, status := TicketStatus.used }
      ⟨.ok t1, saveTicket s t1, noEff⟩

/-! ### Operation sequences over one event (for the quota invariant) -/

/-- The order operations of the quota claim, as one event sees them: order
creation (with the gateway call succeeding or failing), user cancellation,
a provider webhook reporting EXPIRED, and an expiry-sweeper pass. -/
inductive QuotaOp
  | createOp (userId userEmail : String) (userName : Option String)
      (quantity : Nat) (gatewayOk : Bool) (now : Nat)
  | cancelOp (orderId : Nat) (userId : String) (now : Nat)
  | webhookExpireOp (orderId : Nat) (now : Nat)
  | sweepOp (now : Nat)
deriving DecidableEq, Repr

/-- Apply one operation to the state, keeping the state it leaves behind
(webhooks are delivered with the configured token `tok`). -/
def applyQuotaOp (tok : String) (s : St) : QuotaOp → St
  | .createOp uid em nm q ok now => (createOrder uid em nm q ok now s).st
  | .cancelOp oid uid now => (cancel oid uid now s).st
  | .webhookExpireOp oid now =>
      (processWebhook tok
        ⟨"wh", some oid, XenditWebhookStatus.EXPIRED, none, none⟩ tok now s).st
  | .sweepOp now => (expireOrders now s).st

/-- Run a sequence of operations from a state. -/
def runQuotaOps (tok : String) (ops : List QuotaOp) (s : St) : St :=
  ops.foldl (applyQuotaOp tok) s

/-- The state of a freshly created, published event with quota `q0` and no
orders, payments or tickets. -/
def initSt (q0 : Nat) : St :=
  { quota := q0, eventPublished := true, eventStart := none,
    orders := [], payments := [], tickets := [], nextOrderId := 0, nextTicketNumber := 0 }

/-- Quota an order holds while it awaits payment: its quantity for a
pre-payment status, nothing otherwise. -/
def preQty (o : Order) : Int :=
  if o.status = OrderStatus.pending ∨ o.status = OrderStatus.awaiting_payment then
    (o.quantity : Int)
  else 0

/-- Total quota held by pre-payment orders. -/
def pendSum (l : List Order) : Int := (l.map preQty).sum

/-- Well-formedness of the order table: row ids are distinct and below the
id supply. -/
def IdsOk (s : St) : Prop :=
  (s.orders.map (fun o => o.id)).Nodup ∧ ∀ o ∈ s.orders, o.id < s.nextOrderId

/-- The quota invariant, relative to the event's original quota `q0`: the
counter is non-negative and, together with the quota held by pre-payment
orders, never exceeds `q0`. -/
def QuotaInv (q0 : Nat) (s : St) : Prop :=
  0 ≤ s.quota ∧ s.quota + pendSum s.orders ≤ (q0 : Int)

/-- The seat-label formula as the specification words it: section letter is
the character 'A' plus `i div 100`, row is `(i mod 100) div 10 + 1`, seat is
`i mod 10 + 1`, formatted section++row++"-"++seat. -/
def seatNumberSpec (i : Nat) : String :=
  String.singleton (Char.ofNat ('A'.toNat + i / 100)) ++
    toString (i % 100 / 10 + 1) ++ "-" ++ toString (i % 10 + 1)

/-! ### Generic lookup/replace lemmas for the repository model -/

section ListLemmas

variable {α : Type}

/-- Replacing the rows keyed `i` leaves lookups for a different key unchanged. -/
lemma find?_replace_ne (key : α → Nat) (l : List α) (i j : Nat) (aNew : α)
    (hk : key aNew = i) (hij : i ≠ j) :
    (l.map (fun x => if key x == i then aNew else x)).find? (fun x => key x == j) =
      l.find? (fun x => key x == j) := by
  induction l with
  | nil => rfl
  | cons a t ih =>
    simp only [List.map_cons]
    by_cases ha : key a = i
    · have haj : (key a == j) = false := by simp [ha, hij]
      have hnj : (key aNew == j) = false := by simp [hk, hij]
      rw [if_pos (by simpa using ha)]
      simp only [List.find?_cons, haj, hnj]
      exact ih
    · rw [if_neg (by simpa using ha)]
      by_cases hj : key a = j
      · simp only [List.find?_cons, show (key a == j) = true by simpa using hj]
      · simp only [List.find?_cons, show (key a == j) = false by simp [hj]]
        exact ih

/-- Replacing the rows keyed `i` makes the lookup for `i` return the new row,
provided some row with key `i` was present. -/
lemma find?_replace_self (key : α → Nat) (l : List α) (i : Nat) (aNew : α)
    (hk : key aNew = i) (h : (l.find? (fun x => key x == i)).isSome) :
    (l.map (fun x => if key x == i then aNew else x)).find? (fun x => key x == i) =
      some aNew := by
  induction l with
  | nil => simp [List.find?] at h
  | cons a t ih =>
    simp only [List.map_cons]
    by_cases ha : key a = i
    · rw [if_pos (by simpa using ha)]
      simp only [List.find?_cons, show (key aNew == i) = true by simpa using hk]
    · rw [if_neg (by simpa using ha)]
      simp only [List.find?_cons, show (key a == i) = false by simp [ha]]
      apply ih
      simp only [List.find?_cons, show (key a == i) = false by simp [ha]] at h
      exact h

/-- A row map that only rewrites keys absent from the list is the identity. -/
lemma map_replace_of_not_mem (key : α → Nat) (l : List α) (i : Nat) (aNew : α)
    (h : ∀ x ∈ l, key x ≠ i) :
    l.map (fun x => if key x == i then aNew else x) = l := by
  calc l.map (fun x => if key x == i then aNew else x)
      = l.map (fun x => x) := by
        refine List.map_congr_left (fun x hx => ?_)
        rw [if_neg (by simpa using h x hx)]
    _ = l := List.map_id l

/-- Effect of a keyed replace on a weighted sum, assuming keys are unique:
the old row's weight is swapped for the new row's. -/
lemma sum_map_replace (key : α → Nat) (w : α → Int) (l : List α) (i : Nat)
    (aOld aNew : α) (_hk : key aNew = i)
    (hN : (l.map key).Nodup)
    (hf : l.find? (fun x => key x == i) = some aOld) :
    ((l.map (fun x => if key x == i then aNew else x)).map w).sum =
      (l.map w).sum - w aOld + w aNew := by
  induction l with
  | nil => simp [List.find?] at hf
  | cons a t ih =>
    simp only [List.map_cons, List.nodup_cons] at hN ⊢
    by_cases ha : key a = i
    · simp only [List.find?_cons, show (key a == i) = true by simpa using ha] at hf
      injection hf with hf
      subst hf
      rw [if_pos (by simpa using ha)]
      have ht : t.map (fun x => if key x == i then aNew else x) = t := by
        refine map_replace_of_not_mem key t i aNew (fun x hx hxi => ?_)
        have hmem : key a ∈ List.map key t := by
          rw [ha, ← hxi]
          exact List.mem_map_of_mem key hx
        exact hN.1 hmem
      rw [ht]
      simp only [List.sum_cons]
      ring
    · simp only [List.find?_cons, show (key a == i) = false by simp [ha]] at hf
      rw [if_neg (by simpa using ha)]
      simp only [List.sum_cons]
      rw [ih hN.2 hf]
      ring

/-- A keyed replace does not change the list of keys. -/
lemma map_key_replace (key : α → Nat) (l : List α) (i : Nat) (aNew : α)
    (hk : key aNew = i) :
    (l.map (fun x => if key x == i then aNew else x)).map key = l.map key := by
  rw [List.map_map]
  refine List.map_congr_left (fun x _ => ?_)
  by_cases hx : key x = i
  · simp [hx, hk]
  · simp [hx]

end ListLemmas

/-! ### Frame lemmas for the repository writes -/

@[simp] lemma savePayment_orders (s : St) (p : Payment) : (savePayment s p).orders = s.orders := rfl

@[simp] lemma savePayment_quota (s : St) (p : Payment) : (savePayment s p).quota = s.quota := rfl

@[simp] lemma savePayment_tickets (s : St) (p : Payment) : (savePayment s p).tickets = s.tickets := rfl

@[simp] lemma savePayment_nextOrderId (s : St) (p : Payment) : (savePayment s p).nextOrderId = s.nextOrderId := rfl

@[simp] lemma savePayment_nextTicketNumber (s : St) (p : Payment) : (savePayment s p).nextTicketNumber = s.nextTicketNumber := rfl

@[simp] lemma saveOrder_quota (s : St) (o : Order) : (saveOrder s o).quota = s.quota := rfl

@[simp] lemma saveOrder_payments (s : St) (o : Order) : (saveOrder s o).payments = s.payments := rfl

@[simp] lemma saveOrder_tickets (s : St) (o : Order) : (saveOrder s o).tickets = s.tickets := rfl

@[simp] lemma saveOrder_nextOrderId (s : St) (o : Order) : (saveOrder s o).nextOrderId = s.nextOrderId := rfl

@[simp] lemma saveOrder_nextTicketNumber (s : St) (o : Order) : (saveOrder s o).nextTicketNumber = s.nextTicketNumber := rfl

@[simp] lemma batchCancelTickets_orders (ids : List Nat) (r : String) (now : Nat) (s : St) :
    (batchCancelTickets ids r now s).orders = s.orders := rfl

@[simp] lemma batchCancelTickets_quota (ids : List Nat) (r : String) (now : Nat) (s : St) :
    (batchCancelTickets ids r now s).quota = s.quota := rfl

@[simp] lemma batchCancelTickets_payments (ids : List Nat) (r : String) (now : Nat) (s : St) :
    (batchCancelTickets ids r now s).payments = s.payments := rfl

@[simp] lemma batchCancelTickets_nextOrderId (ids : List Nat) (r : String) (now : Nat) (s : St) :
    (batchCancelTickets ids r now s).nextOrderId = s.nextOrderId := rfl

@[simp] lemma batchCancelTickets_nextTicketNumber (ids : List Nat) (r : String) (now : Nat) (s : St) :
    (batchCancelTickets ids r now s).nextTicketNumber = s.nextTicketNumber := rfl

@[simp] lemma saveTicket_orders (s : St) (t : Ticket) : (saveTicket s t).orders = s.orders := rfl

@[simp] lemma saveTicket_quota (s : St) (t : Ticket) : (saveTicket s t).quota = s.quota := rfl

@[simp] lemma saveTicket_payments (s : St) (t : Ticket) : (saveTicket s t).payments = s.payments := rfl

@[simp] lemma findOrder_savePayment (s : St) (p : Payment) (i : Nat) :
    findOrder (savePayment s p) i = findOrder s i := rfl

@[simp] lemma findOrder_batchCancel (ids : List Nat) (r : String) (now : Nat) (s : St) (i : Nat) :
    findOrder (batchCancelTickets ids r now s) i = findOrder s i := rfl

@[simp] lemma ticketsOf_savePayment (s : St) (p : Payment) (oid : Nat) :
    ticketsOf (savePayment s p) oid = ticketsOf s oid := rfl

@[simp] lemma ticketsOf_saveOrder (s : St) (o : Order) (oid : Nat) :
    ticketsOf (saveOrder s o) oid = ticketsOf s oid := rfl

@[simp] lemma findPayment_saveOrder (s : St) (o : Order) (oid : Nat) :
    findPayment (saveOrder s o) oid = findPayment s oid := rfl

@[simp] lemma findPayment_batchCancel (ids : List Nat) (r : String) (now : Nat) (s : St) (oid : Nat) :
    findPayment (batchCancelTickets ids r now s) oid = findPayment s oid := rfl

/-! ### Lookups after keyed writes -/

/-- A found order's id matches the searched id. -/
lemma findOrder_id {s : St} {i : Nat} {o : Order} (h : findOrder s i = some o) : o.id = i := by
  simpa using List.find?_some h

/-- A found order is a row of the table. -/
lemma findOrder_mem {s : St} {i : Nat} {o : Order} (h : findOrder s i = some o) : o ∈ s.orders :=
  List.mem_of_find?_eq_some h

/-- A found payment's orderId matches the searched id. -/
lemma findPayment_orderId {s : St} {i : Nat} {p : Payment} (h : findPayment s i = some p) :
    p.orderId = i := by
  simpa using List.find?_some h

/-- A found ticket's id matches the searched id. -/
lemma findTicket_id {s : St} {i : Nat} {t : Ticket} (h : findTicket s i = some t) : t.id = i := by
  simpa using List.find?_some h

/-- Saving a row over an existing order makes the lookup return the new row. -/
lemma findOrder_saveOrder_self {s : St} {i : Nat} {o : Order} (o2 : Order)
    (h : findOrder s i = some o) (hid : o2.id = i) :
    findOrder (saveOrder s o2) i = some o2 := by
  subst hid
  exact find?_replace_self (fun x => x.id) s.orders o2.id o2 rfl (by unfold findOrder at h; rw [h]; rfl)

/-- Saving an order leaves lookups of other ids unchanged. -/
lemma findOrder_saveOrder_ne {s : St} (o2 : Order) {j : Nat} (hne : o2.id ≠ j) :
    findOrder (saveOrder s o2) j = findOrder s j := by
  unfold findOrder saveOrder
  exact find?_replace_ne (fun x => x.id) s.orders o2.id j o2 rfl hne

/-- Saving a row over an existing payment makes the lookup return the new row. -/
lemma findPayment_savePayment_self {s : St} {i : Nat} {p : Payment} (p2 : Payment)
    (h : findPayment s i = some p) (hid : p2.orderId = i) :
    findPayment (savePayment s p2) i = some p2 := by
  subst hid
  exact find?_replace_self (fun x => x.orderId) s.payments p2.orderId p2 rfl
    (by unfold findPayment at h; rw [h]; rfl)

/-- Every fabricated ticket belongs to the order it was fabricated for. -/
lemma freshTickets_orderId {o : Order} {base now : Nat} :
    ∀ t ∈ freshTickets o base now, t.orderId = o.id := by
  intro t ht
  simp only [freshTickets, List.mem_map, List.mem_range] at ht
  obtain ⟨i, _, rfl⟩ := ht
  rfl

/-- The fabricated batch is sized to the order's quantity. -/
lemma freshTickets_length (o : Order) (base now : Nat) :
    (freshTickets o base now).length = o.quantity := by
  simp [freshTickets]

/-- Filtering by an orderId every row already carries is the identity. -/
lemma filter_orderId_self (l : List Ticket) (oid : Nat) (h : ∀ t ∈ l, t.orderId = oid) :
    l.filter (fun t => t.orderId == oid) = l :=
  List.filter_eq_self.mpr (fun t ht => by simp [h t ht])

/-- Reading the tickets of order `oid` after appending rows that all belong to `oid`. -/
lemma ticketsOf_append (s : St) (oid : Nat) (l : List Ticket) (nt : Nat)
    (h : ∀ t ∈ l, t.orderId = oid) :
    ticketsOf { s with tickets := s.tickets ++ l, nextTicketNumber := nt } oid =
      ticketsOf s oid ++ l := by
  unfold ticketsOf
  dsimp only
  rw [List.filter_append, filter_orderId_self l oid h]

/-! ### Characterisation of `generateTicketsForOrder` -/

/-- Idempotence branch: when tickets already exist for the order they are
returned unchanged, with no new rows and no artifact generation. -/
lemma generateTickets_existing {s : St} {oid : Nat} {o : Order} (now : Nat)
    (hO : findOrder s oid = some o) (hT : ticketsOf s oid ≠ []) :
    generateTicketsForOrder oid now s = ⟨.ok (ticketsOf s oid), s, noEff⟩ := by
  unfold generateTicketsForOrder
  rw [hO]
  dsimp only
  rw [if_pos (List.length_pos.mpr hT)]

/-- Fabrication branch: with no existing tickets, a fresh batch sized to the
order's quantity is inserted and one QR and one PDF per ticket are generated. -/
lemma generateTickets_fresh {s : St} {oid : Nat} {o : Order} (now : Nat)
    (hO : findOrder s oid = some o) (hT : ticketsOf s oid = []) :
    generateTicketsForOrder oid now s =
      ⟨.ok (freshTickets o s.nextTicketNumber now),
       { s with tickets := s.tickets ++ freshTickets o s.nextTicketNumber now,
                nextTicketNumber := s.nextTicketNumber + o.quantity },
       genEff o.quantity⟩ := by
  unfold generateTicketsForOrder
  rw [hO]
  dsimp only
  rw [hT, if_neg (by simp)]

/-- Ticket generation never touches the order table. -/
lemma generateTickets_orders (oid now : Nat) (s : St) :
    (generateTicketsForOrder oid now s).st.orders = s.orders := by
  unfold generateTicketsForOrder
  cases findOrder s oid with
  | none => rfl
  | some o =>
    dsimp only
    by_cases h : 0 < (ticketsOf s oid).length
    · rw [if_pos h]
    · rw [if_neg h]

/-- Ticket generation never touches the quota counter. -/
lemma generateTickets_quota (oid now : Nat) (s : St) :
    (generateTicketsForOrder oid now s).st.quota = s.quota := by
  unfold generateTicketsForOrder
  cases findOrder s oid with
  | none => rfl
  | some o =>
    dsimp only
    by_cases h : 0 < (ticketsOf s oid).length
    · rw [if_pos h]
    · rw [if_neg h]

/-- Ticket generation never touches the payment table. -/
lemma generateTickets_payments (oid now : Nat) (s : St) :
    (generateTicketsForOrder oid now s).st.payments = s.payments := by
  unfold generateTicketsForOrder
  cases findOrder s oid with
  | none => rfl
  | some o =>
    dsimp only
    by_cases h : 0 < (ticketsOf s oid).length
    · rw [if_pos h]
    · rw [if_neg h]

/-- Ticket generation never touches the order-id supply. -/
lemma generateTickets_nextOrderId (oid now : Nat) (s : St) :
    (generateTicketsForOrder oid now s).st.nextOrderId = s.nextOrderId := by
  unfold generateTicketsForOrder
  cases findOrder s oid with
  | none => rfl
  | some o =>
    dsimp only
    by_cases h : 0 < (ticketsOf s oid).length
    · rw [if_pos h]
    · rw [if_neg h]

/-- Order lookups are unchanged by ticket generation. -/
lemma findOrder_generateTickets (oid now : Nat) (s : St) (j : Nat) :
    findOrder (generateTicketsForOrder oid now s).st j = findOrder s j := by
  unfold findOrder
  rw [generateTickets_orders]

/-- Payment lookups are unchanged by ticket generation. -/
lemma findPayment_generateTickets (oid now : Nat) (s : St) (j : Nat) :
    findPayment (generateTicketsForOrder oid now s).st j = findPayment s j := by
  unfold findPayment
  rw [generateTickets_payments]

/-! ### Characterisation of `updateStatus` -/

/-- Missing order: `NotFound`, no mutation. -/
lemma updateStatus_notFound {s : St} {i : Nat} (target : OrderStatus) (now : Nat)
    (h : findOrder s i = none) :
    updateStatus i target now s = ⟨.error (.notFound "Order not found"), s, noEff⟩ := by
  unfold updateStatus
  rw [h]

/-- Idempotency guard: a target status equal to the current one returns the
current record unchanged and performs no side effects. -/
lemma updateStatus_guard {s : St} {i : Nat} {o : Order} {target : OrderStatus} (now : Nat)
    (hO : findOrder s i = some o) (hS : o.status = target) :
    updateStatus i target now s = ⟨.ok o, s, noEff⟩ := by
  unfold updateStatus
  rw [hO]
  dsimp only
  rw [if_pos hS]

/-- Plain transition: not a release (not into cancelled/expired from a
pre-payment status) and not into paid — only the row save happens. -/
lemma updateStatus_plain {s : St} {i : Nat} {o : Order} {target : OrderStatus} (now : Nat)
    (hO : findOrder s i = some o) (hS : o.status ≠ target)
    (hRC : ¬ ((target = OrderStatus.cancelled ∨ target = OrderStatus.expired) ∧
              (o.status = OrderStatus.pending ∨ o.status = OrderStatus.awaiting_payment)))
    (hP : target ≠ OrderStatus.paid) :
    updateStatus i target now s =
      ⟨.ok { o with status := target }, saveOrder s { o with status := target }, noEff⟩ := by
  unfold updateStatus
  rw [hO]
  dsimp only
  rw [if_neg hS]
  rw [if_neg hRC, if_neg (fun hc => hP hc.1)]

/-- Release transition: moving into cancelled/expired from a pre-payment
status restores the order's quantity to the quota and batch-cancels any
loaded tickets before the row save; no email, no generation. -/
lemma updateStatus_release {s : St} {i : Nat} {o : Order} {target : OrderStatus} (now : Nat)
    (hO : findOrder s i = some o)
    (hPre : o.status = OrderStatus.pending ∨ o.status = OrderStatus.awaiting_payment)
    (hTgt : target = OrderStatus.cancelled ∨ target = OrderStatus.expired) :
    updateStatus i target now s =
      ⟨.ok { o with status := target },
       saveOrder
         (if (ticketsOf s i).length > 0 then
            batchCancelTickets ((ticketsOf s i).map (fun t => t.id))
              ("Order " ++ statusName target) now { s with quota := s.quota + o.quantity }
          else { s with quota := s.quota + o.quantity })
         { o with status := target },
       noEff⟩ := by
  have hS : o.status ≠ target := by
    rcases hPre with h | h <;> rcases hTgt with h2 | h2 <;> simp [h, h2]
  have hP : target ≠ OrderStatus.paid := by
    rcases hTgt with h2 | h2 <;> simp [h2]
  have hRCp : (target = OrderStatus.cancelled ∨ target = OrderStatus.expired) ∧
      (o.status = OrderStatus.pending ∨ o.status = OrderStatus.awaiting_payment) :=
    ⟨hTgt, hPre⟩
  unfold updateStatus
  rw [hO]
  dsimp only
  rw [if_neg hS]
  rw [if_neg (fun hc => hP hc.1), if_pos hRCp]

/-- Transition into paid from an unpaid order whose loaded ticket relation is
empty: row save, fresh fabrication and one paid-email dispatch attempt. -/
lemma updateStatus_toPaid_fresh {s : St} {i : Nat} {o : Order} (now : Nat)
    (hO : findOrder s i = some o) (hS : o.status ≠ OrderStatus.paid)
    (hT : ticketsOf s i = []) :
    updateStatus i OrderStatus.paid now s =
      ⟨.ok { o with status := OrderStatus.paid },
       { saveOrder s { o with status := OrderStatus.paid } with
           tickets := s.tickets ++
             freshTickets { o with status := OrderStatus.paid } s.nextTicketNumber now,
           nextTicketNumber := s.nextTicketNumber + o.quantity },
       addEff (genEff o.quantity) paidEmailEff⟩ := by
  have hRC : ¬ ((OrderStatus.paid = OrderStatus.cancelled ∨
                 OrderStatus.paid = OrderStatus.expired) ∧
                (o.status = OrderStatus.pending ∨ o.status = OrderStatus.awaiting_payment)) := by
    rintro ⟨h | h, _⟩ <;> exact OrderStatus.noConfusion h
  have hO2 : findOrder (saveOrder s { o with status := OrderStatus.paid }) i =
      some { o with status := OrderStatus.paid } :=
    @findOrder_saveOrder_self s i o { o with status := OrderStatus.paid } hO
      (findOrder_id (o := o) hO)
  have hT2 : ticketsOf (saveOrder s { o with status := OrderStatus.paid }) i = [] := by
    rw [ticketsOf_saveOrder]
    exact hT
  unfold updateStatus
  rw [hO]
  dsimp only
  rw [if_neg hS]
  rw [if_neg hRC, if_pos ⟨rfl, hS⟩, hT]
  rw [if_pos (show ([] : List Ticket).length = 0 from rfl)]
  rw [generateTickets_fresh now hO2 hT2]
  rfl

/-! ### Effect arithmetic -/

@[simp] lemma addEff_noEff (e : Effects) : addEff e noEff = e := by
  cases e
  simp [addEff, noEff]

@[simp] lemma noEff_addEff (e : Effects) : addEff noEff e = e := by
  cases e
  simp [addEff, noEff]

@[simp] lemma genEff_zero : genEff 0 = noEff := rfl

/-- When the order already has as many tickets as its quantity, ticket
generation leaves the ticket table unchanged and performs no effects (this
covers quantity zero, where the fabricated batch is empty). -/
lemma generateTickets_noop {s : St} {oid : Nat} {o : Order} (now : Nat)
    (hO : findOrder s oid = some o)
    (hLen : (ticketsOf s oid).length = o.quantity) :
    ticketsOf (generateTicketsForOrder oid now s).st oid = ticketsOf s oid ∧
    (generateTicketsForOrder oid now s).eff = noEff := by
  by_cases hq : 0 < (ticketsOf s oid).length
  · rw [generateTickets_existing now hO (List.ne_nil_of_length_pos hq)]
    exact ⟨rfl, rfl⟩
  · have hTe : ticketsOf s oid = [] := by
      cases hc : ticketsOf s oid with
      | nil => rfl
      | cons a l => exact absurd (hc ▸ List.length_pos.mpr (by simp)) hq
    have hq0 : o.quantity = 0 := by rw [← hLen, hTe]; rfl
    have hFr : freshTickets o s.nextTicketNumber now = [] := by
      simp [freshTickets, hq0]
    rw [generateTickets_fresh now hO hTe]
    refine ⟨?_, by rw [show genEff o.quantity = noEff by rw [hq0]; rfl]⟩
    rw [ticketsOf_append s oid _ _
        (fun t ht => by rw [freshTickets_orderId t ht]; exact findOrder_id hO),
      hFr, List.append_nil]

/-! ### Characterisation of `processWebhook` deliveries -/

/-- A PENDING webhook for an existing order with a payment: the payment row
is refreshed to pending; a pending order is left untouched by the
idempotency guard, while an awaiting_payment (or any other non-pending)
order has its status overwritten with pending; no external effects. -/
lemma processWebhook_PENDING {s : St} {oid : Nat} {o : Order} {p : Payment}
    (tok pid : String) (pm : Option String) (pa : Option Nat) (now : Nat)
    (hO : findOrder s oid = some o) (hP : findPayment s oid = some p) :
    processWebhook tok ⟨pid, some oid, XenditWebhookStatus.PENDING, pm, pa⟩ tok now s =
      (if o.status = OrderStatus.pending then
        ⟨.ok (), savePayment s { p with status := PaymentStatus.pending }, noEff⟩
      else
        ⟨.ok (),
         saveOrder (savePayment s { p with status := PaymentStatus.pending })
           { o with status := OrderStatus.pending }, noEff⟩) := by
  have hO1 : findOrder (savePayment s { p with status := PaymentStatus.pending }) oid = some o := by
    rw [findOrder_savePayment]
    exact hO
  unfold processWebhook
  rw [if_neg (fun h => h rfl)]
  dsimp only [mapWebhookStatus]
  rw [hO]
  dsimp only
  rw [hP]
  dsimp only
  rw [if_neg (by simp : ¬ (PaymentStatus.pending = PaymentStatus.paid))]
  by_cases hs : o.status = OrderStatus.pending
  · rw [updateStatus_guard now hO1 (by rw [hs]; rfl)]
    dsimp only [mapPaymentStatusToOrderStatus]
    rw [if_pos hs, if_neg (by simp : ¬ (PaymentStatus.pending = PaymentStatus.paid))]
  · rw [show mapPaymentStatusToOrderStatus PaymentStatus.pending = OrderStatus.pending from rfl]
    rw [updateStatus_plain now hO1 hs (by rintro ⟨h | h, _⟩ <;> exact OrderStatus.noConfusion h)
      (by simp)]
    dsimp only
    rw [if_neg hs, if_neg (by simp : ¬ (PaymentStatus.pending = PaymentStatus.paid))]

/-- An EXPIRED webhook for an order that is already paid: the payment row is
overwritten with expired and the order's status with expired, but no quota is
restored, no tickets are cancelled and no effects are performed (the old
status is not pre-payment, so the release branch is skipped). -/
lemma processWebhook_EXPIRED_paidOrder {s : St} {oid : Nat} {o : Order} {p : Payment}
    (tok pid : String) (pm : Option String) (pa : Option Nat) (now : Nat)
    (hO : findOrder s oid = some o) (hS : o.status = OrderStatus.paid)
    (hP : findPayment s oid = some p) :
    processWebhook tok ⟨pid, some oid, XenditWebhookStatus.EXPIRED, pm, pa⟩ tok now s =
      ⟨.ok (),
       saveOrder (savePayment s { p with status := PaymentStatus.expired })
         { o with status := OrderStatus.expired }, noEff⟩ := by
  have hO1 : findOrder (savePayment s { p with status := PaymentStatus.expired }) oid = some o := by
    rw [findOrder_savePayment]
    exact hO
  unfold processWebhook
  rw [if_neg (fun h => h rfl)]
  dsimp only [mapWebhookStatus]
  rw [hO]
  dsimp only
  rw [hP]
  dsimp only
  rw [if_neg (by simp : ¬ (PaymentStatus.expired = PaymentStatus.paid))]
  rw [show mapPaymentStatusToOrderStatus PaymentStatus.expired = OrderStatus.expired from rfl]
  rw [updateStatus_plain now hO1 (by rw [hS]; simp)
    (by rintro ⟨_, h | h⟩ <;> rw [hS] at h <;> exact OrderStatus.noConfusion h) (by simp)]
  dsimp only
  rw [if_neg (by simp : ¬ (PaymentStatus.expired = PaymentStatus.paid))]

/-- First PAID delivery for an unpaid order with no tickets and a linked
payment: the payment row is marked paid, the order becomes paid, a fresh
batch of tickets sized to the order's quantity is fabricated, and exactly
one paid-confirmation email dispatch is attempted. -/
lemma processWebhook_PAID_fresh {s : St} {oid : Nat} {o : Order} {p : Payment}
    (tok pid : String) (pm : Option String) (pa : Option Nat) (now : Nat)
    (hO : findOrder s oid = some o) (hS : o.status ≠ OrderStatus.paid)
    (hT : ticketsOf s oid = []) (hP : findPayment s oid = some p) :
    (processWebhook tok ⟨pid, some oid, XenditWebhookStatus.PAID, pm, pa⟩ tok now s).result =
        .ok () ∧
    findOrder (processWebhook tok ⟨pid, some oid, XenditWebhookStatus.PAID, pm, pa⟩ tok now s).st
        oid = some { o with status := OrderStatus.paid } ∧
    ticketsOf (processWebhook tok ⟨pid, some oid, XenditWebhookStatus.PAID, pm, pa⟩ tok now s).st
        oid = freshTickets { o with status := OrderStatus.paid } s.nextTicketNumber now ∧
    findPayment (processWebhook tok ⟨pid, some oid, XenditWebhookStatus.PAID, pm, pa⟩ tok now s).st
        oid = some { p with status := PaymentStatus.paid, paidAt := some now,
                            paymentMethod := some (pm.getD "Unknown") } ∧
    (processWebhook tok ⟨pid, some oid, XenditWebhookStatus.PAID, pm, pa⟩ tok now s).st.quota =
        s.quota ∧
    (processWebhook tok ⟨pid, some oid, XenditWebhookStatus.PAID, pm, pa⟩ tok now s).eff =
        addEff (genEff o.quantity) paidEmailEff := by
  have hid : o.id = oid := findOrder_id hO
  have hpid : p.orderId = oid := findPayment_orderId hP
  set p2 : Payment := { p with status := PaymentStatus.paid, paidAt := some now,
                               paymentMethod := some (pm.getD "Unknown") } with hp2
  set o1 : Order := { o with status := OrderStatus.paid } with ho1
  set s1 : St := savePayment s p2 with hs1
  have hO1 : findOrder s1 oid = some o := by rw [hs1, findOrder_savePayment]; exact hO
  have hT1 : ticketsOf s1 oid = [] := by rw [hs1, ticketsOf_savePayment]; exact hT
  set sU : St :=
    { saveOrder s1 o1 with
        tickets := s1.tickets ++ freshTickets o1 s1.nextTicketNumber now,
        nextTicketNumber := s1.nextTicketNumber + o.quantity } with hsU
  have hOU : findOrder sU oid = some o1 := by
    have : findOrder sU oid = findOrder (saveOrder s1 o1) oid := rfl
    rw [this]
    exact @findOrder_saveOrder_self s1 oid o o1 hO1 (by rw [ho1]; exact hid)
  have hTU : ticketsOf sU oid = freshTickets o1 s1.nextTicketNumber now := by
    have : ticketsOf sU oid =
        (s1.tickets ++ freshTickets o1 s1.nextTicketNumber now).filter
          (fun t => t.orderId == oid) := rfl
    rw [this, List.filter_append]
    rw [show s1.tickets.filter (fun t => t.orderId == oid) = ticketsOf s1 oid from rfl, hT1]
    rw [filter_orderId_self _ _
      (fun t ht => by rw [freshTickets_orderId t ht, ho1]; exact hid)]
    rfl
  have hLenU : (ticketsOf sU oid).length = o1.quantity := by
    rw [hTU, freshTickets_length]
  have hPU : findPayment sU oid = some p2 := by
    have : findPayment sU oid = findPayment s1 oid := rfl
    rw [this, hs1]
    exact findPayment_savePayment_self p2 hP (by rw [hp2]; exact hpid)
  have hnoop := generateTickets_noop now hOU hLenU
  unfold processWebhook
  rw [if_neg (fun h => h rfl)]
  dsimp only [mapWebhookStatus]
  rw [hO]
  dsimp only
  rw [hP]
  dsimp only
  rw [if_pos rfl]
  rw [show mapPaymentStatusToOrderStatus PaymentStatus.paid = OrderStatus.paid from rfl]
  rw [← hp2, ← hs1]
  rw [updateStatus_toPaid_fresh now hO1 hS hT1]
  dsimp only
  rw [if_pos rfl]
  rw [← ho1, ← hsU]
  refine ⟨rfl, ?_, ?_, ?_, ?_, ?_⟩
  · rw [show (⟨.ok (), (generateTicketsForOrder oid now sU).st,
        addEff (addEff (genEff o.quantity) paidEmailEff)
          (generateTicketsForOrder oid now sU).eff⟩ : Res Unit).st =
      (generateTicketsForOrder oid now sU).st from rfl]
    rw [show findOrder (generateTicketsForOrder oid now sU).st oid = findOrder sU oid from
      findOrder_generateTickets oid now sU oid]
    exact hOU
  · rw [show (⟨.ok (), (generateTicketsForOrder oid now sU).st,
        addEff (addEff (genEff o.quantity) paidEmailEff)
          (generateTicketsForOrder oid now sU).eff⟩ : Res Unit).st =
      (generateTicketsForOrder oid now sU).st from rfl]
    rw [hnoop.1, hTU]
    rfl
  · rw [show (⟨.ok (), (generateTicketsForOrder oid now sU).st,
        addEff (addEff (genEff o.quantity) paidEmailEff)
          (generateTicketsForOrder oid now sU).eff⟩ : Res Unit).st =
      (generateTicketsForOrder oid now sU).st from rfl]
    rw [findPayment_generateTickets oid now sU oid]
    exact hPU
  · rw [show (⟨.ok (), (generateTicketsForOrder oid now sU).st,
        addEff (addEff (genEff o.quantity) paidEmailEff)
          (generateTicketsForOrder oid now sU).eff⟩ : Res Unit).st =
      (generateTicketsForOrder oid now sU).st from rfl]
    rw [generateTickets_quota]
    rfl
  · rw [show (⟨.ok (), (generateTicketsForOrder oid now sU).st,
        addEff (addEff (genEff o.quantity) paidEmailEff)
          (generateTicketsForOrder oid now sU).eff⟩ : Res Unit).eff =
      addEff (addEff (genEff o.quantity) paidEmailEff)
        (generateTicketsForOrder oid now sU).eff from rfl]
    rw [hnoop.2, addEff_noEff]

/-- A duplicate PAID delivery for an order that is already paid and already
holds its full ticket batch: the payment row timestamps are refreshed, the
order transition hits the idempotency guard, ticket generation finds the
existing batch, and no external effects are performed. -/
lemma processWebhook_PAID_alreadyPaid {s : St} {oid : Nat} {o : Order} {p : Payment}
    (tok pid : String) (pm : Option String) (pa : Option Nat) (now : Nat)
    (hO : findOrder s oid = some o) (hS : o.status = OrderStatus.paid)
    (hP : findPayment s oid = some p)
    (hLen : (ticketsOf s oid).length = o.quantity) :
    (processWebhook tok ⟨pid, some oid, XenditWebhookStatus.PAID, pm, pa⟩ tok now s).result =
        .ok () ∧
    findOrder (processWebhook tok ⟨pid, some oid, XenditWebhookStatus.PAID, pm, pa⟩ tok now s).st
        oid = some o ∧
    ticketsOf (processWebhook tok ⟨pid, some oid, XenditWebhookStatus.PAID, pm, pa⟩ tok now s).st
        oid = ticketsOf s oid ∧
    (processWebhook tok ⟨pid, some oid, XenditWebhookStatus.PAID, pm, pa⟩ tok now s).st.quota =
        s.quota ∧
    (processWebhook tok ⟨pid, some oid, XenditWebhookStatus.PAID, pm, pa⟩ tok now s).eff =
        noEff := by
  set p2 : Payment := { p with status := PaymentStatus.paid, paidAt := some now,
                               paymentMethod := some (pm.getD "Unknown") } with hp2
  set s1 : St := savePayment s p2 with hs1
  have hO1 : findOrder s1 oid = some o := by rw [hs1, findOrder_savePayment]; exact hO
  have hT1 : ticketsOf s1 oid = ticketsOf s oid := by rw [hs1, ticketsOf_savePayment]
  have hLen1 : (ticketsOf s1 oid).length = o.quantity := by rw [hT1]; exact hLen
  have hnoop := generateTickets_noop now hO1 hLen1
  unfold processWebhook
  rw [if_neg (fun h => h rfl)]
  dsimp only [mapWebhookStatus]
  rw [hO]
  dsimp only
  rw [hP]
  dsimp only
  rw [if_pos rfl]
  rw [show mapPaymentStatusToOrderStatus PaymentStatus.paid = OrderStatus.paid from rfl]
  rw [← hp2, ← hs1]
  rw [updateStatus_guard now hO1 hS]
  dsimp only
  rw [if_pos rfl]
  refine ⟨rfl, ?_, ?_, ?_, ?_⟩
  · rw [show (⟨.ok (), (generateTicketsForOrder oid now s1).st,
        addEff noEff (generateTicketsForOrder oid now s1).eff⟩ : Res Unit).st =
      (generateTicketsForOrder oid now s1).st from rfl]
    rw [findOrder_generateTickets oid now s1 oid]
    exact hO1
  · rw [show (⟨.ok (), (generateTicketsForOrder oid now s1).st,
        addEff noEff (generateTicketsForOrder oid now s1).eff⟩ : Res Unit).st =
      (generateTicketsForOrder oid now s1).st from rfl]
    rw [hnoop.1, hT1]
  · rw [show (⟨.ok (), (generateTicketsForOrder oid now s1).st,
        addEff noEff (generateTicketsForOrder oid now s1).eff⟩ : Res Unit).st =
      (generateTicketsForOrder oid now s1).st from rfl]
    rw [generateTickets_quota]
    rfl
  · rw [show (⟨.ok (), (generateTicketsForOrder oid now s1).st,
        addEff noEff (generateTicketsForOrder oid now s1).eff⟩ : Res Unit).eff =
      addEff noEff (generateTicketsForOrder oid now s1).eff from rfl]
    rw [hnoop.2, addEff_noEff]

/-- A PAID delivery for an order that is already paid never changes the order
row, whether or not a payment row or tickets exist. -/
lemma processWebhook_PAID_paidOrder_frame {s : St} {oid : Nat} {o : Order}
    (tok pid : String) (pm : Option String) (pa : Option Nat) (now : Nat)
    (hO : findOrder s oid = some o) (hS : o.status = OrderStatus.paid) :
    findOrder (processWebhook tok ⟨pid, some oid, XenditWebhookStatus.PAID, pm, pa⟩ tok now s).st
        oid = some o ∧
    (processWebhook tok ⟨pid, some oid, XenditWebhookStatus.PAID, pm, pa⟩ tok now s).st.quota =
        s.quota := by
  unfold processWebhook
  rw [if_neg (fun h => h rfl)]
  dsimp only [mapWebhookStatus]
  rw [hO]
  dsimp only
  cases hPm : findPayment s oid with
  | none =>
    dsimp only
    rw [show mapPaymentStatusToOrderStatus PaymentStatus.paid = OrderStatus.paid from rfl]
    rw [updateStatus_guard now hO hS]
    dsimp only
    rw [if_pos rfl]
    constructor
    · rw [show (⟨.ok (), (generateTicketsForOrder oid now s).st,
          addEff noEff (generateTicketsForOrder oid now s).eff⟩ : Res Unit).st =
        (generateTicketsForOrder oid now s).st from rfl]
      rw [findOrder_generateTickets oid now s oid]
      exact hO
    · rw [show (⟨.ok (), (generateTicketsForOrder oid now s).st,
          addEff noEff (generateTicketsForOrder oid now s).eff⟩ : Res Unit).st =
        (generateTicketsForOrder oid now s).st from rfl]
      rw [generateTickets_quota]
  | some p =>
    dsimp only
    rw [if_pos rfl]
    rw [show mapPaymentStatusToOrderStatus PaymentStatus.paid = OrderStatus.paid from rfl]
    set p2 : Payment := { p with status := PaymentStatus.paid, paidAt := some now,
                                 paymentMethod := some (pm.getD "Unknown") } with hp2
    set s1 : St := savePayment s p2 with hs1
    have hO1 : findOrder s1 oid = some o := by
      rw [hs1, findOrder_savePayment]
      exact hO
    rw [updateStatus_guard now hO1 hS]
    dsimp only
    rw [if_pos rfl]
    constructor
    · rw [findOrder_generateTickets]
      exact hO1
    · rw [show (⟨.ok (), (generateTicketsForOrder oid now s1).st,
          addEff noEff (generateTicketsForOrder oid now s1).eff⟩ : Res Unit).st =
        (generateTicketsForOrder oid now s1).st from rfl]
      rw [generateTickets_quota]
      rfl

/-! ### The quota invariant machinery -/

/-- Held quota is never negative. -/
lemma preQty_nonneg (o : Order) : 0 ≤ preQty o := by
  unfold preQty
  split
  · exact Int.natCast_nonneg o.quantity
  · exact le_refl 0

/-- Total held quota is never negative. -/
lemma pendSum_nonneg (l : List Order) : 0 ≤ pendSum l := by
  unfold pendSum
  refine List.sum_nonneg (fun x hx => ?_)
  rw [List.mem_map] at hx
  obtain ⟨o, _, rfl⟩ := hx
  exact preQty_nonneg o

/-- Held quota over an appended table. -/
lemma pendSum_append (l₁ l₂ : List Order) : pendSum (l₁ ++ l₂) = pendSum l₁ + pendSum l₂ := by
  unfold pendSum
  rw [List.map_append, List.sum_append]

/-- Held quota after replacing the (unique) row with a given id. -/
lemma pendSum_replaceOrders {l : List Order} {i : Nat} {o : Order} (o2 : Order)
    (hf : l.find? (fun x => x.id == i) = some o) (hid : o2.id = i)
    (hN : (l.map (fun x => x.id)).Nodup) :
    pendSum (l.map (fun x => if x.id == o2.id then o2 else x)) =
      pendSum l - preQty o + preQty o2 := by
  subst hid
  exact sum_map_replace (fun x => x.id) preQty l o2.id o o2 rfl hN hf

/-- Saving a row keeps the order table well formed. -/
lemma IdsOk_saveOrder {s : St} (o2 : Order) (h : IdsOk s) : IdsOk (saveOrder s o2) := by
  constructor
  · show (((s.orders.map (fun x => if x.id == o2.id then o2 else x))).map (fun x => x.id)).Nodup
    rw [map_key_replace (fun x => x.id) s.orders o2.id o2 rfl]
    exact h.1
  · intro x hx
    rw [show (saveOrder s o2).orders = s.orders.map (fun x => if x.id == o2.id then o2 else x)
      from rfl, List.mem_map] at hx
    obtain ⟨y, hy, rfl⟩ := hx
    show (if y.id == o2.id then o2 else y).id < s.nextOrderId
    by_cases hid : y.id = o2.id
    · rw [if_pos (by simpa using hid)]
      show o2.id < s.nextOrderId
      rw [← hid]
      exact h.2 y hy
    · rw [if_neg (by simpa using hid)]
      exact h.2 y hy

/-- `updateStatus` into cancelled or expired preserves the quota invariant
and table well-formedness (these are the only targets the claimed operation
set drives it to). -/
lemma updateStatus_inv {q0 : Nat} {s : St} (i : Nat) (target : OrderStatus) (now : Nat)
    (hT : target = OrderStatus.cancelled ∨ target = OrderStatus.expired)
    (hQ : QuotaInv q0 s) (hI : IdsOk s) :
    QuotaInv q0 (updateStatus i target now s).st ∧ IdsOk (updateStatus i target now s).st := by
  cases hO : findOrder s i with
  | none =>
    rw [updateStatus_notFound target now hO]
    exact ⟨hQ, hI⟩
  | some o =>
    by_cases hg : o.status = target
    · rw [updateStatus_guard now hO hg]
      exact ⟨hQ, hI⟩
    · have hid : o.id = i := findOrder_id hO
      have hfind : s.orders.find? (fun x => x.id == ({ o with status := target } : Order).id) =
          some o := by
        show s.orders.find? (fun x => x.id == o.id) = some o
        rw [hid]
        exact hO
      have hpre0 : preQty { o with status := target } = 0 := by
        unfold preQty
        rw [if_neg (by
          rcases hT with h | h <;> subst h <;> rintro (h2 | h2) <;>
            exact OrderStatus.noConfusion h2)]
      have hPne : target ≠ OrderStatus.paid := by
        rcases hT with h | h <;> subst h <;> simp
      by_cases hPre : o.status = OrderStatus.pending ∨ o.status = OrderStatus.awaiting_payment
      · rw [updateStatus_release now hO hPre hT]
        set sMid : St :=
          if (ticketsOf s i).length > 0 then
            batchCancelTickets ((ticketsOf s i).map (fun t => t.id))
              ("Order " ++ statusName target) now { s with quota := s.quota + o.quantity }
          else { s with quota := s.quota + o.quantity } with hsMid
        have hMidO : sMid.orders = s.orders := by rw [hsMid]; split <;> rfl
        have hMidQ : sMid.quota = s.quota + o.quantity := by rw [hsMid]; split <;> rfl
        have hMidN : sMid.nextOrderId = s.nextOrderId := by rw [hsMid]; split <;> rfl
        have hOrd : (saveOrder sMid { o with status := target }).orders =
            s.orders.map (fun x => if x.id == ({ o with status := target } : Order).id then
              { o with status := target } else x) := by
          show sMid.orders.map _ = _
          rw [hMidO]
        have hpreo : preQty o = (o.quantity : Int) := by
          unfold preQty
          rw [if_pos hPre]
        constructor
        · constructor
          · show (0 : Int) ≤ (saveOrder sMid { o with status := target }).quota
            rw [saveOrder_quota, hMidQ]
            have h1 := hQ.1
            positivity
          · show (saveOrder sMid { o with status := target }).quota +
                pendSum (saveOrder sMid { o with status := target }).orders ≤ (q0 : Int)
            rw [saveOrder_quota, hMidQ, hOrd,
              pendSum_replaceOrders { o with status := target } hfind rfl hI.1,
              hpreo, hpre0]
            have h2 := hQ.2
            linarith
        · have hMidI : IdsOk sMid := ⟨by rw [hMidO]; exact hI.1, by
            rw [hMidN]
            intro x hx
            rw [hMidO] at hx
            exact hI.2 x hx⟩
          exact IdsOk_saveOrder _ hMidI
      · have hRC : ¬ ((target = OrderStatus.cancelled ∨ target = OrderStatus.expired) ∧
            (o.status = OrderStatus.pending ∨ o.status = OrderStatus.awaiting_payment)) :=
          fun hc => hPre hc.2
        rw [updateStatus_plain now hO hg hRC hPne]
        have hOrd : (saveOrder s { o with status := target }).orders =
            s.orders.map (fun x => if x.id == ({ o with status := target } : Order).id then
              { o with status := target } else x) := rfl
        constructor
        · constructor
          · show (0 : Int) ≤ (saveOrder s { o with status := target }).quota
            rw [saveOrder_quota]
            exact hQ.1
          · show (saveOrder s { o with status := target }).quota +
                pendSum (saveOrder s { o with status := target }).orders ≤ (q0 : Int)
            rw [saveOrder_quota, hOrd,
              pendSum_replaceOrders { o with status := target } hfind rfl hI.1, hpre0]
            have h2 := hQ.2
            have h3 := preQty_nonneg o
            linarith
        · exact IdsOk_saveOrder _ hI

/-- Order creation preserves the quota invariant: the decrement is guarded by
the availability check, and the gateway-failure rollback restores both the
counter and the order table. -/
lemma createOrder_inv {q0 : Nat} {s : St} (uid em : String) (nm : Option String)
    (q : Nat) (ok : Bool) (now : Nat) (hQ : QuotaInv q0 s) (hI : IdsOk s) :
    QuotaInv q0 (createOrder uid em nm q ok now s).st ∧
    IdsOk (createOrder uid em nm q ok now s).st := by
  unfold createOrder
  by_cases hpub : s.eventPublished = false
  · rw [if_pos hpub]
    exact ⟨hQ, hI⟩
  rw [if_neg hpub]
  by_cases hstart : (match s.eventStart with
    | some t => decide (t < now)
    | none => false) = true
  · rw [if_pos hstart]
    exact ⟨hQ, hI⟩
  rw [if_neg hstart]
  by_cases hq : s.quota < (q : Int)
  · rw [if_pos hq]
    exact ⟨hQ, hI⟩
  rw [if_neg hq]
  dsimp only
  set newOrder : Order :=
    { id := s.nextOrderId, userId := uid, userEmail := em, userName := nm,
      quantity := q, status := OrderStatus.pending, expiredAt := now + 3600 } with hNew
  have hNotMem : ∀ x ∈ s.orders, x.id ≠ s.nextOrderId :=
    fun x hx => Nat.ne_of_lt (hI.2 x hx)
  have hPendApp : pendSum (s.orders ++ [newOrder]) = pendSum s.orders + (q : Int) := by
    rw [pendSum_append]
    have : preQty newOrder = (q : Int) := by
      unfold preQty
      rw [if_pos (Or.inl rfl)]
    unfold pendSum
    simp [this]
  have hNodupApp : ((s.orders ++ [newOrder]).map (fun x => x.id)).Nodup := by
    rw [List.map_append]
    rw [List.nodup_append]
    refine ⟨hI.1, by simp, ?_⟩
    intro a ha
    rw [List.mem_map] at ha
    obtain ⟨x, hx, rfl⟩ := ha
    simp only [List.map_cons, List.map_nil, List.mem_singleton]
    exact fun hcontra => hNotMem x hx hcontra
  cases ok with
  | true =>
    rw [if_pos rfl]
    refine ⟨⟨?_, ?_⟩, ?_, ?_⟩
    · show (0 : Int) ≤ s.quota - (q : Int)
      omega
    · show s.quota - (q : Int) + pendSum (s.orders ++ [newOrder]) ≤ (q0 : Int)
      rw [hPendApp]
      have h2 := hQ.2
      linarith
    · exact hNodupApp
    · intro x hx
      show x.id < s.nextOrderId + 1
      rcases List.mem_append.mp hx with hx | hx
      · exact Nat.lt_succ_of_lt (hI.2 x hx)
      · rw [List.mem_singleton] at hx
        subst hx
        exact Nat.lt_succ_self _
  | false =>
    rw [if_neg (by simp)]
    dsimp only
    have hOrders : ((s.orders ++ [newOrder]).filter (fun x => x.id != s.nextOrderId)) =
        s.orders := by
      rw [List.filter_append]
      rw [List.filter_eq_self.mpr (fun a ha => by simpa using hNotMem a ha)]
      rw [show ([newOrder].filter (fun x => x.id != s.nextOrderId)) = [] by
        simp [hNew]]
      exact List.append_nil _
    refine ⟨⟨?_, ?_⟩, ?_, ?_⟩
    · show (0 : Int) ≤ s.quota - (q : Int) + (q : Int)
      have h1 := hQ.1
      linarith
    · show s.quota - (q : Int) + (q : Int) +
          pendSum ((s.orders ++ [newOrder]).filter (fun x => x.id != s.nextOrderId)) ≤ (q0 : Int)
      rw [hOrders]
      have h2 := hQ.2
      linarith
    · show (((s.orders ++ [newOrder]).filter (fun x => x.id != s.nextOrderId)).map
        (fun x => x.id)).Nodup
      rw [hOrders]
      exact hI.1
    · intro x hx
      rw [show (deleteOrder { s with
          orders := s.orders ++ [newOrder], nextOrderId := s.nextOrderId + 1,
          quota := s.quota - (q : Int) + (q : Int) } s.nextOrderId).orders =
        (s.orders ++ [newOrder]).filter (fun x => x.id != s.nextOrderId) from rfl, hOrders] at hx
      show x.id < s.nextOrderId + 1
      exact Nat.lt_succ_of_lt (hI.2 x hx)

/-- User cancellation preserves the quota invariant: every rejection leaves
the state untouched and the accepted path goes through `updateStatus` with
target cancelled. -/
lemma cancel_inv {q0 : Nat} {s : St} (i : Nat) (uid : String) (now : Nat)
    (hQ : QuotaInv q0 s) (hI : IdsOk s) :
    QuotaInv q0 (cancel i uid now s).st ∧ IdsOk (cancel i uid now s).st := by
  unfold cancel
  cases hO : findOrder s i with
  | none => exact ⟨hQ, hI⟩
  | some o =>
    dsimp only
    by_cases hu : o.userId ≠ uid
    · rw [if_pos hu]
      exact ⟨hQ, hI⟩
    rw [if_neg hu]
    by_cases hs2 : o.status ≠ OrderStatus.pending ∧ o.status ≠ OrderStatus.awaiting_payment
    · rw [if_pos hs2]
      exact ⟨hQ, hI⟩
    rw [if_neg hs2]
    by_cases hpaid : (match findPayment s i with
      | some p => decide (p.status = PaymentStatus.paid)
      | none => false) = true
    · rw [if_pos hpaid]
      exact ⟨hQ, hI⟩
    rw [if_neg hpaid]
    have h := updateStatus_inv i OrderStatus.cancelled now (Or.inl rfl) hQ hI
    cases hres : (updateStatus i OrderStatus.cancelled now s).result <;> dsimp only <;> exact h

/-- An EXPIRED webhook preserves the quota invariant: the payment refresh
only touches the payment table and the order transition goes through
`updateStatus` with target expired. -/
lemma webhookExpire_inv {q0 : Nat} {s : St} (tok : String) (oid now : Nat)
    (hQ : QuotaInv q0 s) (hI : IdsOk s) :
    QuotaInv q0 (processWebhook tok
      ⟨"wh", some oid, XenditWebhookStatus.EXPIRED, none, none⟩ tok now s).st ∧
    IdsOk (processWebhook tok
      ⟨"wh", some oid, XenditWebhookStatus.EXPIRED, none, none⟩ tok now s).st := by
  unfold processWebhook
  rw [if_neg (fun h => h rfl)]
  dsimp only [mapWebhookStatus]
  cases hO : findOrder s oid with
  | none => exact ⟨hQ, hI⟩
  | some o =>
    dsimp only
    cases hPm : findPayment s oid with
    | none =>
      dsimp only
      rw [show mapPaymentStatusToOrderStatus PaymentStatus.expired = OrderStatus.expired from rfl]
      have h := updateStatus_inv oid OrderStatus.expired now (Or.inr rfl) hQ hI
      cases hres : (updateStatus oid OrderStatus.expired now s).result <;> dsimp only <;>
        exact h
    | some p =>
      dsimp only
      rw [if_neg (by simp : ¬ (PaymentStatus.expired = PaymentStatus.paid))]
      rw [show mapPaymentStatusToOrderStatus PaymentStatus.expired = OrderStatus.expired from rfl]
      have hQ1 : QuotaInv q0 (savePayment s { p with status := PaymentStatus.expired }) := hQ
      have hI1 : IdsOk (savePayment s { p with status := PaymentStatus.expired }) := hI
      have h := updateStatus_inv oid OrderStatus.expired now (Or.inr rfl) hQ1 hI1
      cases hres : (updateStatus oid OrderStatus.expired now
          (savePayment s { p with status := PaymentStatus.expired })).result <;> dsimp only <;>
        exact h

/-- The state a sweep iteration leaves behind is the state of the expired
transition, whether or not the transition threw. -/
lemma expireStep_fst (now : Nat) (acc : St × Effects) (o : Order) :
    (expireStep now acc o).1 = (updateStatus o.id OrderStatus.expired now acc.1).st := by
  unfold expireStep
  dsimp only
  split <;> rfl

/-- Folding sweep iterations preserves the quota invariant. -/
lemma foldl_expireStep_inv {q0 : Nat} (now : Nat) (l : List Order) :
    ∀ acc : St × Effects, QuotaInv q0 acc.1 → IdsOk acc.1 →
      QuotaInv q0 (l.foldl (expireStep now) acc).1 ∧
      IdsOk (l.foldl (expireStep now) acc).1 := by
  induction l with
  | nil =>
    intro acc h1 h2
    exact ⟨h1, h2⟩
  | cons a t ih =>
    intro acc h1 h2
    rw [List.foldl_cons]
    have h := updateStatus_inv a.id OrderStatus.expired now (Or.inr rfl) h1 h2
    refine ih (expireStep now acc a) ?_ ?_
    · rw [expireStep_fst]
      exact h.1
    · rw [expireStep_fst]
      exact h.2

/-- The expiry sweep preserves the quota invariant. -/
lemma sweep_inv {q0 : Nat} {s : St} (now : Nat) (hQ : QuotaInv q0 s) (hI : IdsOk s) :
    QuotaInv q0 (expireOrders now s).st ∧ IdsOk (expireOrders now s).st := by
  unfold expireOrders
  exact foldl_expireStep_inv now _ (s, noEff) hQ hI

/-- Any sequence of the claimed operations preserves the quota invariant. -/
lemma runQuotaOps_inv (q0 : Nat) (tok : String) (ops : List QuotaOp) :
    ∀ s : St, QuotaInv q0 s → IdsOk s →
      QuotaInv q0 (runQuotaOps tok ops s) ∧ IdsOk (runQuotaOps tok ops s) := by
  induction ops with
  | nil =>
    intro s h1 h2
    exact ⟨h1, h2⟩
  | cons op t ih =>
    intro s h1 h2
    have hstep : QuotaInv q0 (applyQuotaOp tok s op) ∧ IdsOk (applyQuotaOp tok s op) := by
      cases op with
      | createOp uid em nm q ok now => exact createOrder_inv uid em nm q ok now h1 h2
      | cancelOp oid uid now => exact cancel_inv oid uid now h1 h2
      | webhookExpireOp oid now => exact webhookExpire_inv tok oid now h1 h2
      | sweepOp now => exact sweep_inv now h1 h2
    exact ih (applyQuotaOp tok s op) hstep.1 hstep.2

/-! ### Frame lemmas for the expiry sweep -/

/-- A sweep iteration for one order leaves every other order's row alone. -/
lemma findOrder_expireStep_ne (now : Nat) (acc : St × Effects) (a : Order) {j : Nat}
    (hne : a.id ≠ j) :
    findOrder (expireStep now acc a).1 j = findOrder acc.1 j := by
  rw [expireStep_fst]
  cases hO : findOrder acc.1 a.id with
  | none => rw [updateStatus_notFound _ now hO]
  | some o =>
    have hid : o.id = a.id := findOrder_id hO
    by_cases hg : o.status = OrderStatus.expired
    · rw [updateStatus_guard now hO hg]
    · have hne2 : ({ o with status := OrderStatus.expired } : Order).id ≠ j := by
        show o.id ≠ j
        rw [hid]
        exact hne
      by_cases hPre : o.status = OrderStatus.pending ∨ o.status = OrderStatus.awaiting_payment
      · rw [updateStatus_release now hO hPre (Or.inr rfl)]
        rw [findOrder_saveOrder_ne _ hne2]
        split <;> rfl
      · rw [updateStatus_plain now hO hg (fun hc => hPre hc.2) (by simp)]
        rw [findOrder_saveOrder_ne _ hne2]

/-- Folding sweep iterations over orders with other ids leaves a row alone. -/
lemma foldl_expireStep_findOrder (now : Nat) {j : Nat} (l : List Order)
    (hl : ∀ a ∈ l, a.id ≠ j) :
    ∀ acc : St × Effects, findOrder (l.foldl (expireStep now) acc).1 j = findOrder acc.1 j := by
  induction l with
  | nil =>
    intro acc
    rfl
  | cons a t ih =>
    intro acc
    rw [List.foldl_cons]
    rw [ih (fun x hx => hl x (List.mem_cons_of_mem a hx)) (expireStep now acc a)]
    exact findOrder_expireStep_ne now acc a (hl a (List.mem_cons_self a t))

/-- The expiry sweep never touches an order that is not pending: its row
reads the same afterwards (ids must be unique for the row to be the one the
lookup sees). -/
lemma expireOrders_untouched {s : St} {oid : Nat} {o : Order} (now : Nat)
    (hO : findOrder s oid = some o) (hS : o.status ≠ OrderStatus.pending)
    (hN : (s.orders.map (fun x => x.id)).Nodup) :
    findOrder (expireOrders now s).st oid = some o := by
  unfold expireOrders
  dsimp only
  rw [foldl_expireStep_findOrder now _ ?hl (s, noEff)]
  · exact hO
  case hl =>
    intro a ha
    rw [List.mem_filter] at ha
    intro haid
    have hmem : o ∈ s.orders := findOrder_mem hO
    have hoid : o.id = oid := findOrder_id hO
    have : a = o := List.inj_on_of_nodup_map hN ha.1 hmem (by rw [haid, hoid])
    subst this
    have := ha.2
    simp only [Bool.and_eq_true, beq_iff_eq] at this
    exact hS this.1

/-! ### The claims -/

/-- C1: for every event (original quota `q0`) and every sequence of order
operations on it (create, user cancel, webhook-driven expire, sweeper
expire), the available-quota counter never goes negative and never exceeds
the event's original quota; create leaves the counter untouched (and throws)
when the available count is below the requested quantity and decrements it
by exactly the quantity when the checks pass; a cancellation/expiration
transition from a pre-payment status increments it back by exactly the
order's quantity. -/
theorem quota_invariant_under_order_ops (q0 : Nat) (tok : String) (ops : List QuotaOp) :
    (0 ≤ (runQuotaOps tok ops (initSt q0)).quota ∧
     (runQuotaOps tok ops (initSt q0)).quota ≤ (q0 : Int)) ∧
    (∀ (s : St) (uid em : String) (nm : Option String) (q : Nat) (gok : Bool) (now : Nat),
      s.quota < (q : Int) →
        (createOrder uid em nm q gok now s).st.quota = s.quota ∧
        (createOrder uid em nm q gok now s).result.isOk = false) ∧
    (∀ (s : St) (uid em : String) (nm : Option String) (q : Nat) (now : Nat),
      s.eventPublished = true → s.eventStart = none → ¬ s.quota < (q : Int) →
        (createOrder uid em nm q true now s).st.quota = s.quota - (q : Int)) ∧
    (∀ (s : St) (i : Nat) (o : Order) (target : OrderStatus) (now : Nat),
      findOrder s i = some o →
      (o.status = OrderStatus.pending ∨ o.status = OrderStatus.awaiting_payment) →
      (target = OrderStatus.cancelled ∨ target = OrderStatus.expired) →
        (updateStatus i target now s).st.quota = s.quota + (o.quantity : Int)) := by
  refine ⟨?_, ?_, ?_, ?_⟩
  · have hInit : QuotaInv q0 (initSt q0) := by
      refine ⟨Int.natCast_nonneg q0, ?_⟩
      show (q0 : Int) + pendSum [] ≤ (q0 : Int)
      unfold pendSum
      simp
    have hIds : IdsOk (initSt q0) := by
      constructor
      · show (([] : List Order).map (fun o => o.id)).Nodup
        simp
      · intro o h
        exact absurd h (List.not_mem_nil o)
    have h := runQuotaOps_inv q0 tok ops (initSt q0) hInit hIds
    have hp := pendSum_nonneg (runQuotaOps tok ops (initSt q0)).orders
    have h2 := h.1.2
    exact ⟨h.1.1, by linarith⟩
  · intro s uid em nm q gok now hlt
    unfold createOrder
    by_cases hpub : s.eventPublished = false
    · rw [if_pos hpub]
      exact ⟨rfl, rfl⟩
    rw [if_neg hpub]
    by_cases hst : (match s.eventStart with
      | some t => decide (t < now)
      | none => false) = true
    · rw [if_pos hst]
      exact ⟨rfl, rfl⟩
    rw [if_neg hst, if_pos hlt]
    exact ⟨rfl, rfl⟩
  · intro s uid em nm q now hpub hstart hq
    unfold createOrder
    rw [if_neg (by rw [hpub]; simp), if_neg (by rw [hstart]; simp), if_neg hq]
    dsimp only
    rw [if_pos rfl]
  · intro s i o target now hO hPre hTgt
    rw [updateStatus_release now hO hPre hTgt]
    show (saveOrder _ _).quota = _
    rw [saveOrder_quota]
    split <;> rfl

/-- C4: if the payment-gateway call fails during order creation, the
compensating rollback leaves no order row behind, restores the event's quota
to its pre-call value, touches no payment or ticket rows, and surfaces the
failure as a `BadRequest` error. -/
theorem create_gateway_failure_rollback {s : St} (uid em : String) (nm : Option String)
    (q : Nat) (now : Nat)
    (hpub : s.eventPublished = true) (hstart : s.eventStart = none)
    (hq : ¬ s.quota < (q : Int)) (hIds : ∀ x ∈ s.orders, x.id < s.nextOrderId) :
    resultIsBadRequest (createOrder uid em nm q false now s).result = true ∧
    (createOrder uid em nm q false now s).st.orders = s.orders ∧
    (createOrder uid em nm q false now s).st.quota = s.quota ∧
    (createOrder uid em nm q false now s).st.payments = s.payments ∧
    (createOrder uid em nm q false now s).st.tickets = s.tickets := by
  unfold createOrder
  rw [if_neg (by rw [hpub]; simp), if_neg (by rw [hstart]; simp), if_neg hq]
  dsimp only
  rw [if_neg (by simp)]
  have hNotMem : ∀ x ∈ s.orders, x.id ≠ s.nextOrderId :=
    fun x hx => Nat.ne_of_lt (hIds x hx)
  set newOrder : Order :=
    { id := s.nextOrderId, userId := uid, userEmail := em, userName := nm,
      quantity := q, status := OrderStatus.pending, expiredAt := now + 3600 } with hNew
  refine ⟨rfl, ?_, ?_, rfl, rfl⟩
  · show ((s.orders ++ [newOrder]).filter (fun x => x.id != s.nextOrderId)) = s.orders
    rw [List.filter_append]
    rw [List.filter_eq_self.mpr (fun a ha => by simpa using hNotMem a ha)]
    rw [show ([newOrder].filter (fun x => x.id != s.nextOrderId)) = [] by simp [hNew]]
    exact List.append_nil _
  · show s.quota - (q : Int) + (q : Int) = s.quota
    omega

/-- C4 witness: a concrete published event with quota 5 and an order of 2
whose gateway call fails. -/
theorem create_gateway_failure_rollback_witness :
    resultIsBadRequest (createOrder "u" "u@example.com" none 2 false 7
        ⟨5, true, none, [], [], [], 0, 0⟩).result = true ∧
    (createOrder "u" "u@example.com" none 2 false 7
        ⟨5, true, none, [], [], [], 0, 0⟩).st.orders = (⟨5, true, none, [], [], [], 0, 0⟩ : St).orders ∧
    (createOrder "u" "u@example.com" none 2 false 7
        ⟨5, true, none, [], [], [], 0, 0⟩).st.quota = (⟨5, true, none, [], [], [], 0, 0⟩ : St).quota ∧
    (createOrder "u" "u@example.com" none 2 false 7
        ⟨5, true, none, [], [], [], 0, 0⟩).st.payments = (⟨5, true, none, [], [], [], 0, 0⟩ : St).payments ∧
    (createOrder "u" "u@example.com" none 2 false 7
        ⟨5, true, none, [], [], [], 0, 0⟩).st.tickets = (⟨5, true, none, [], [], [], 0, 0⟩ : St).tickets :=
  create_gateway_failure_rollback "u" "u@example.com" none 2 7 rfl rfl
    (by decide) (by intro x hx; exact absurd hx (List.not_mem_nil x))

/-- C6: a webhook whose callback token differs from the configured
shared-secret token is rejected with `Unauthorized` before any state
mutation, whatever the payload contains. -/
theorem webhook_invalid_token_rejected (cfgTok tok : String) (payload : PaymentWebhookDto)
    (now : Nat) (s : St) (h : tok ≠ cfgTok) :
    processWebhook cfgTok payload tok now s =
      ⟨.error (.unauthorized "Invalid token"), s, noEff⟩ := by
  unfold processWebhook
  rw [if_pos h]

/-- C6 witness: a concrete mismatched token on a PAID payload. -/
theorem webhook_invalid_token_rejected_witness :
    processWebhook "secret" ⟨"wh", some 0, XenditWebhookStatus.PAID, none, none⟩ "wrong" 3
        ⟨5, true, none, [], [], [], 0, 0⟩ =
      ⟨.error (.unauthorized "Invalid token"), ⟨5, true, none, [], [], [], 0, 0⟩, noEff⟩ :=
  webhook_invalid_token_rejected "secret" "wrong"
    ⟨"wh", some 0, XenditWebhookStatus.PAID, none, none⟩ 3
    ⟨5, true, none, [], [], [], 0, 0⟩ (by decide)

/-- C7: cancelling an order whose linked payment is already paid throws a
`BadRequest` error and changes nothing: the order keeps its status, no quota
is released and no tickets are cancelled. -/
theorem cancel_paid_payment_rejected {s : St} {i : Nat} {o : Order} {p : Payment}
    (uid : String) (now : Nat)
    (hO : findOrder s i = some o) (hU : o.userId = uid)
    (hP : findPayment s i = some p) (hps : p.status = PaymentStatus.paid) :
    resultIsBadRequest (cancel i uid now s).result = true ∧
    (cancel i uid now s).st = s ∧ (cancel i uid now s).eff = noEff := by
  unfold cancel
  rw [hO]
  dsimp only
  rw [if_neg (by rw [hU]; exact fun hc => hc rfl)]
  by_cases hpre : o.status ≠ OrderStatus.pending ∧ o.status ≠ OrderStatus.awaiting_payment
  · rw [if_pos hpre]
    exact ⟨rfl, rfl, rfl⟩
  · rw [if_neg hpre]
    rw [if_pos (show (match findPayment s i with
        | some p => decide (p.status = PaymentStatus.paid)
        | none => false) = true by rw [hP]; simp [hps])]
    exact ⟨rfl, rfl, rfl⟩

/-- C7 witness: a concrete pending order whose payment row already reads
paid (a webhook raced the user's cancellation). -/
theorem cancel_paid_payment_rejected_witness :
    resultIsBadRequest (cancel 0 "u" 9
        ⟨3, true, none, [⟨0, "u", "u@example.com", none, 2, OrderStatus.pending, 10⟩],
         [⟨0, PaymentStatus.paid, some 1, some "VA"⟩], [], 1, 0⟩).result = true ∧
    (cancel 0 "u" 9
        ⟨3, true, none, [⟨0, "u", "u@example.com", none, 2, OrderStatus.pending, 10⟩],
         [⟨0, PaymentStatus.paid, some 1, some "VA"⟩], [], 1, 0⟩).st =
      ⟨3, true, none, [⟨0, "u", "u@example.com", none, 2, OrderStatus.pending, 10⟩],
       [⟨0, PaymentStatus.paid, some 1, some "VA"⟩], [], 1, 0⟩ ∧
    (cancel 0 "u" 9
        ⟨3, true, none, [⟨0, "u", "u@example.com", none, 2, OrderStatus.pending, 10⟩],
         [⟨0, PaymentStatus.paid, some 1, some "VA"⟩], [], 1, 0⟩).eff = noEff :=
  cancel_paid_payment_rejected "u" 9 rfl rfl rfl rfl

/-- C8: ticket generation is idempotent per order — when tickets already
exist it returns them unchanged, creates no rows and generates no QR or PDF
artifacts, and re-invoking it afterwards returns the same tickets again. -/
theorem ticket_generation_idempotent {s : St} {oid : Nat} {o : Order} {ts : List Ticket}
    (now now2 : Nat)
    (hO : findOrder s oid = some o) (hT : ticketsOf s oid = ts) (hne : ts ≠ []) :
    generateTicketsForOrder oid now s = ⟨.ok ts, s, noEff⟩ ∧
    generateTicketsForOrder oid now2 (generateTicketsForOrder oid now s).st =
      ⟨.ok ts, s, noEff⟩ := by
  have h1 : generateTicketsForOrder oid now s = ⟨.ok ts, s, noEff⟩ := by
    rw [generateTickets_existing now hO (hT ▸ hne), hT]
  have h2 : generateTicketsForOrder oid now2 s = ⟨.ok ts, s, noEff⟩ := by
    rw [generateTickets_existing now2 hO (hT ▸ hne), hT]
  refine ⟨h1, ?_⟩
  rw [h1]
  exact h2

/-- C8 witness: a concrete paid order that already owns one ticket. -/
theorem ticket_generation_idempotent_witness :
    generateTicketsForOrder 0 4
        ⟨3, true, none, [⟨0, "u", "u@example.com", none, 1, OrderStatus.paid, 10⟩],
         [⟨0, PaymentStatus.paid, some 1, some "VA"⟩],
         [⟨7, 7, "A1-1", 0, none, some "u@example.com", TicketStatus.active, false, none, none,
           some "qr-7.png", some "ticket-7.pdf", none, none, some 2⟩], 1, 8⟩ =
      ⟨.ok [⟨7, 7, "A1-1", 0, none, some "u@example.com", TicketStatus.active, false, none, none,
           some "qr-7.png", some "ticket-7.pdf", none, none, some 2⟩],
       ⟨3, true, none, [⟨0, "u", "u@example.com", none, 1, OrderStatus.paid, 10⟩],
        [⟨0, PaymentStatus.paid, some 1, some "VA"⟩],
        [⟨7, 7, "A1-1", 0, none, some "u@example.com", TicketStatus.active, false, none, none,
          some "qr-7.png", some "ticket-7.pdf", none, none, some 2⟩], 1, 8⟩, noEff⟩ ∧
    generateTicketsForOrder 0 6
        (generateTicketsForOrder 0 4
          ⟨3, true, none, [⟨0, "u", "u@example.com", none, 1, OrderStatus.paid, 10⟩],
           [⟨0, PaymentStatus.paid, some 1, some "VA"⟩],
           [⟨7, 7, "A1-1", 0, none, some "u@example.com", TicketStatus.active, false, none, none,
             some "qr-7.png", some "ticket-7.pdf", none, none, some 2⟩], 1, 8⟩).st =
      ⟨.ok [⟨7, 7, "A1-1", 0, none, some "u@example.com", TicketStatus.active, false, none, none,
           some "qr-7.png", some "ticket-7.pdf", none, none, some 2⟩],
       ⟨3, true, none, [⟨0, "u", "u@example.com", none, 1, OrderStatus.paid, 10⟩],
        [⟨0, PaymentStatus.paid, some 1, some "VA"⟩],
        [⟨7, 7, "A1-1", 0, none, some "u@example.com", TicketStatus.active, false, none, none,
          some "qr-7.png", some "ticket-7.pdf", none, none, some 2⟩], 1, 8⟩, noEff⟩ :=
  ticket_generation_idempotent 4 6 rfl rfl (by decide)

/-- C9: the seat label for ticket index `i` is deterministic: the section
letter is 'A' plus `i div 100`, the row is `(i mod 100) div 10 + 1`, the
seat is `i mod 10 + 1`, formatted section++row++"-"++seat; indices 0, 1, 2
yield A1-1, A1-2, A1-3. -/
theorem seat_label_formula :
    (∀ i : Nat, generateSeatNumber i = seatNumberSpec i) ∧
    generateSeatNumber 0 = "A1-1" ∧ generateSeatNumber 1 = "A1-2" ∧
    generateSeatNumber 2 = "A1-3" :=
  ⟨fun _ => rfl, by decide, by decide, by decide⟩

/-- C2: delivering the same PAID webhook payload twice to an unpaid order
with a linked payment and no tickets yields exactly one fabricated ticket
batch (sized to the order's quantity) and exactly one paid-confirmation
email dispatch attempt; the second delivery hits the idempotency guard,
leaves the order record and the tickets unchanged and performs no external
side effects. -/
theorem webhook_paid_idempotent {s : St} {oid : Nat} {o : Order} {p : Payment}
    (tok pid : String) (pm : Option String) (pa : Option Nat) (now1 now2 : Nat)
    (hO : findOrder s oid = some o)
    (hS : o.status = OrderStatus.pending ∨ o.status = OrderStatus.awaiting_payment)
    (hT : ticketsOf s oid = []) (hP : findPayment s oid = some p) :
    (processWebhook tok ⟨pid, some oid, XenditWebhookStatus.PAID, pm, pa⟩ tok now1
        s).eff.paidEmails = 1 ∧
    (processWebhook tok ⟨pid, some oid, XenditWebhookStatus.PAID, pm, pa⟩ tok now1
        s).eff.ticketRows = o.quantity ∧
    (ticketsOf (processWebhook tok ⟨pid, some oid, XenditWebhookStatus.PAID, pm, pa⟩ tok now1
        s).st oid).length = o.quantity ∧
    findOrder (processWebhook tok ⟨pid, some oid, XenditWebhookStatus.PAID, pm, pa⟩ tok now1
        s).st oid = some { o with status := OrderStatus.paid } ∧
    (processWebhook tok ⟨pid, some oid, XenditWebhookStatus.PAID, pm, pa⟩ tok now2
        (processWebhook tok ⟨pid, some oid, XenditWebhookStatus.PAID, pm, pa⟩ tok now1
          s).st).eff = noEff ∧
    ticketsOf (processWebhook tok ⟨pid, some oid, XenditWebhookStatus.PAID, pm, pa⟩ tok now2
        (processWebhook tok ⟨pid, some oid, XenditWebhookStatus.PAID, pm, pa⟩ tok now1
          s).st).st oid =
      ticketsOf (processWebhook tok ⟨pid, some oid, XenditWebhookStatus.PAID, pm, pa⟩ tok now1
        s).st oid ∧
    findOrder (processWebhook tok ⟨pid, some oid, XenditWebhookStatus.PAID, pm, pa⟩ tok now2
        (processWebhook tok ⟨pid, some oid, XenditWebhookStatus.PAID, pm, pa⟩ tok now1
          s).st).st oid =
      findOrder (processWebhook tok ⟨pid, some oid, XenditWebhookStatus.PAID, pm, pa⟩ tok now1
        s).st oid := by
  have hSne : o.status ≠ OrderStatus.paid := by
    rcases hS with h | h <;> rw [h] <;> simp
  obtain ⟨h1res, h1ord, h1tik, h1pay, h1quota, h1eff⟩ :=
    processWebhook_PAID_fresh tok pid pm pa now1 hO hSne hT hP
  have hLen : (ticketsOf (processWebhook tok ⟨pid, some oid, XenditWebhookStatus.PAID, pm, pa⟩
      tok now1 s).st oid).length = ({ o with status := OrderStatus.paid } : Order).quantity := by
    rw [h1tik]
    exact freshTickets_length _ _ _
  obtain ⟨h2res, h2ord, h2tik, h2quota, h2eff⟩ :=
    processWebhook_PAID_alreadyPaid tok pid pm pa now2 h1ord rfl h1pay hLen
  refine ⟨?_, ?_, hLen, h1ord, h2eff, h2tik, ?_⟩
  · rw [h1eff]
    rfl
  · rw [h1eff]
    rfl
  · rw [h2ord, h1ord]

/-- C2 witness: a concrete pending order of quantity 2, delivered the same
PAID webhook at two instants. -/
theorem webhook_paid_idempotent_witness :
    (processWebhook "t" ⟨"wh", some 0, XenditWebhookStatus.PAID, some "VA", some 4⟩ "t" 5
        ⟨3, true, none, [⟨0, "u", "u@example.com", none, 2, OrderStatus.pending, 10⟩],
         [⟨0, PaymentStatus.pending, none, none⟩], [], 1, 0⟩).eff.paidEmails = 1 ∧
    (processWebhook "t" ⟨"wh", some 0, XenditWebhookStatus.PAID, some "VA", some 4⟩ "t" 5
        ⟨3, true, none, [⟨0, "u", "u@example.com", none, 2, OrderStatus.pending, 10⟩],
         [⟨0, PaymentStatus.pending, none, none⟩], [], 1, 0⟩).eff.ticketRows =
      (⟨0, "u", "u@example.com", none, 2, OrderStatus.pending, 10⟩ : Order).quantity ∧
    (ticketsOf (processWebhook "t" ⟨"wh", some 0, XenditWebhookStatus.PAID, some "VA", some 4⟩
        "t" 5 ⟨3, true, none, [⟨0, "u", "u@example.com", none, 2, OrderStatus.pending, 10⟩],
         [⟨0, PaymentStatus.pending, none, none⟩], [], 1, 0⟩).st 0).length =
      (⟨0, "u", "u@example.com", none, 2, OrderStatus.pending, 10⟩ : Order).quantity ∧
    findOrder (processWebhook "t" ⟨"wh", some 0, XenditWebhookStatus.PAID, some "VA", some 4⟩
        "t" 5 ⟨3, true, none, [⟨0, "u", "u@example.com", none, 2, OrderStatus.pending, 10⟩],
         [⟨0, PaymentStatus.pending, none, none⟩], [], 1, 0⟩).st 0 =
      some { (⟨0, "u", "u@example.com", none, 2, OrderStatus.pending, 10⟩ : Order) with
             status := OrderStatus.paid } ∧
    (processWebhook "t" ⟨"wh", some 0, XenditWebhookStatus.PAID, some "VA", some 4⟩ "t" 6
        (processWebhook "t" ⟨"wh", some 0, XenditWebhookStatus.PAID, some "VA", some 4⟩ "t" 5
          ⟨3, true, none, [⟨0, "u", "u@example.com", none, 2, OrderStatus.pending, 10⟩],
           [⟨0, PaymentStatus.pending, none, none⟩], [], 1, 0⟩).st).eff = noEff ∧
    ticketsOf (processWebhook "t" ⟨"wh", some 0, XenditWebhookStatus.PAID, some "VA", some 4⟩
        "t" 6 (processWebhook "t" ⟨"wh", some 0, XenditWebhookStatus.PAID, some "VA", some 4⟩
          "t" 5 ⟨3, true, none, [⟨0, "u", "u@example.com", none, 2, OrderStatus.pending, 10⟩],
           [⟨0, PaymentStatus.pending, none, none⟩], [], 1, 0⟩).st).st 0 =
      ticketsOf (processWebhook "t" ⟨"wh", some 0, XenditWebhookStatus.PAID, some "VA", some 4⟩
        "t" 5 ⟨3, true, none, [⟨0, "u", "u@example.com", none, 2, OrderStatus.pending, 10⟩],
         [⟨0, PaymentStatus.pending, none, none⟩], [], 1, 0⟩).st 0 ∧
    findOrder (processWebhook "t" ⟨"wh", some 0, XenditWebhookStatus.PAID, some "VA", some 4⟩
        "t" 6 (processWebhook "t" ⟨"wh", some 0, XenditWebhookStatus.PAID, some "VA", some 4⟩
          "t" 5 ⟨3, true, none, [⟨0, "u", "u@example.com", none, 2, OrderStatus.pending, 10⟩],
           [⟨0, PaymentStatus.pending, none, none⟩], [], 1, 0⟩).st).st 0 =
      findOrder (processWebhook "t" ⟨"wh", some 0, XenditWebhookStatus.PAID, some "VA", some 4⟩
        "t" 5 ⟨3, true, none, [⟨0, "u", "u@example.com", none, 2, OrderStatus.pending, 10⟩],
         [⟨0, PaymentStatus.pending, none, none⟩], [], 1, 0⟩).st 0 :=
  webhook_paid_idempotent "t" "wh" (some "VA") (some 4) 5 6 rfl (Or.inl rfl) rfl rfl

/-- C3 counterexample: a paid order is not absorbing as stated — a webhook
reporting EXPIRED for an order whose status is paid overwrites the status
with expired. -/
theorem paid_status_not_absorbing_cex :
    ((⟨3, true, none, [⟨0, "u", "u@example.com", none, 2, OrderStatus.paid, 10⟩],
       [⟨0, PaymentStatus.paid, some 1, some "VA"⟩], [], 1, 0⟩ : St).orders.map
      (fun o => o.status) = [OrderStatus.paid]) ∧
    ((processWebhook "tok" ⟨"wh", some 0, XenditWebhookStatus.EXPIRED, none, none⟩ "tok" 5
        ⟨3, true, none, [⟨0, "u", "u@example.com", none, 2, OrderStatus.paid, 10⟩],
         [⟨0, PaymentStatus.paid, some 1, some "VA"⟩], [], 1, 0⟩).st.orders.map
      (fun o => o.status) = [OrderStatus.expired]) := by decide

/-- C3 amended: a paid order is preserved by duplicate PAID webhooks, by
user cancellation (which throws) and by the expiry sweep; but a webhook
reporting EXPIRED (resp. PENDING) overwrites the paid status with expired
(resp. pending) — without restoring any quota or touching the tickets,
since the old status is not pre-payment. -/
theorem paid_absorbing_amended {s : St} {oid : Nat} {o : Order} {p : Payment}
    (tok pid : String) (pm : Option String) (pa : Option Nat) (now : Nat)
    (hO : findOrder s oid = some o) (hS : o.status = OrderStatus.paid)
    (hP : findPayment s oid = some p)
    (hN : (s.orders.map (fun x => x.id)).Nodup) :
    findOrder (processWebhook tok ⟨pid, some oid, XenditWebhookStatus.PAID, pm, pa⟩ tok now
        s).st oid = some o ∧
    (∀ uid, (cancel oid uid now s).st = s ∧ (cancel oid uid now s).result.isOk = false) ∧
    findOrder (expireOrders now s).st oid = some o ∧
    (processWebhook tok ⟨pid, some oid, XenditWebhookStatus.EXPIRED, pm, pa⟩ tok now
        s).st.quota = s.quota ∧
    (processWebhook tok ⟨pid, some oid, XenditWebhookStatus.EXPIRED, pm, pa⟩ tok now
        s).st.tickets = s.tickets ∧
    findOrder (processWebhook tok ⟨pid, some oid, XenditWebhookStatus.EXPIRED, pm, pa⟩ tok now
        s).st oid = some { o with status := OrderStatus.expired } ∧
    findOrder (processWebhook tok ⟨pid, some oid, XenditWebhookStatus.PENDING, pm, pa⟩ tok now
        s).st oid = some { o with status := OrderStatus.pending } := by
  have hE := processWebhook_EXPIRED_paidOrder tok pid pm pa now hO hS hP
  have hW := processWebhook_PENDING tok pid pm pa now hO hP
  refine ⟨(processWebhook_PAID_paidOrder_frame tok pid pm pa now hO hS).1, ?_, ?_, ?_, ?_, ?_, ?_⟩
  · intro uid
    unfold cancel
    rw [hO]
    dsimp only
    by_cases hu : o.userId ≠ uid
    · rw [if_pos hu]
      exact ⟨rfl, rfl⟩
    · rw [if_neg hu]
      rw [if_pos ⟨by rw [hS]; simp, by rw [hS]; simp⟩]
      exact ⟨rfl, rfl⟩
  · exact expireOrders_untouched now hO (by rw [hS]; simp) hN
  · rw [hE]
    rfl
  · rw [hE]
    rfl
  · rw [hE]
    exact @findOrder_saveOrder_self (savePayment s { p with status := PaymentStatus.expired })
      oid o { o with status := OrderStatus.expired }
      (by rw [findOrder_savePayment]; exact hO) (findOrder_id (o := o) hO)
  · rw [hW, if_neg (by rw [hS]; simp)]
    exact @findOrder_saveOrder_self (savePayment s { p with status := PaymentStatus.pending })
      oid o { o with status := OrderStatus.pending }
      (by rw [findOrder_savePayment]; exact hO) (findOrder_id (o := o) hO)

/-- C3 amended witness: a concrete paid order with its paid payment row. -/
theorem paid_absorbing_amended_witness :
    findOrder (processWebhook "t" ⟨"wh", some 0, XenditWebhookStatus.PAID, none, none⟩ "t" 5
        ⟨3, true, none, [⟨0, "u", "u@example.com", none, 2, OrderStatus.paid, 10⟩],
         [⟨0, PaymentStatus.paid, some 1, some "VA"⟩], [], 1, 0⟩).st 0 =
      some ⟨0, "u", "u@example.com", none, 2, OrderStatus.paid, 10⟩ ∧
    (∀ uid, (cancel 0 uid 5
        ⟨3, true, none, [⟨0, "u", "u@example.com", none, 2, OrderStatus.paid, 10⟩],
         [⟨0, PaymentStatus.paid, some 1, some "VA"⟩], [], 1, 0⟩).st =
        ⟨3, true, none, [⟨0, "u", "u@example.com", none, 2, OrderStatus.paid, 10⟩],
         [⟨0, PaymentStatus.paid, some 1, some "VA"⟩], [], 1, 0⟩ ∧
      (cancel 0 uid 5
        ⟨3, true, none, [⟨0, "u", "u@example.com", none, 2, OrderStatus.paid, 10⟩],
         [⟨0, PaymentStatus.paid, some 1, some "VA"⟩], [], 1, 0⟩).result.isOk = false) ∧
    findOrder (expireOrders 5
        ⟨3, true, none, [⟨0, "u", "u@example.com", none, 2, OrderStatus.paid, 10⟩],
         [⟨0, PaymentStatus.paid, some 1, some "VA"⟩], [], 1, 0⟩).st 0 =
      some ⟨0, "u", "u@example.com", none, 2, OrderStatus.paid, 10⟩ ∧
    (processWebhook "t" ⟨"wh", some 0, XenditWebhookStatus.EXPIRED, none, none⟩ "t" 5
        ⟨3, true, none, [⟨0, "u", "u@example.com", none, 2, OrderStatus.paid, 10⟩],
         [⟨0, PaymentStatus.paid, some 1, some "VA"⟩], [], 1, 0⟩).st.quota =
      (⟨3, true, none, [⟨0, "u", "u@example.com", none, 2, OrderStatus.paid, 10⟩],
        [⟨0, PaymentStatus.paid, some 1, some "VA"⟩], [], 1, 0⟩ : St).quota ∧
    (processWebhook "t" ⟨"wh", some 0, XenditWebhookStatus.EXPIRED, none, none⟩ "t" 5
        ⟨3, true, none, [⟨0, "u", "u@example.com", none, 2, OrderStatus.paid, 10⟩],
         [⟨0, PaymentStatus.paid, some 1, some "VA"⟩], [], 1, 0⟩).st.tickets =
      (⟨3, true, none, [⟨0, "u", "u@example.com", none, 2, OrderStatus.paid, 10⟩],
        [⟨0, PaymentStatus.paid, some 1, some "VA"⟩], [], 1, 0⟩ : St).tickets ∧
    findOrder (processWebhook "t" ⟨"wh", some 0, XenditWebhookStatus.EXPIRED, none, none⟩ "t" 5
        ⟨3, true, none, [⟨0, "u", "u@example.com", none, 2, OrderStatus.paid, 10⟩],
         [⟨0, PaymentStatus.paid, some 1, some "VA"⟩], [], 1, 0⟩).st 0 =
      some { (⟨0, "u", "u@example.com", none, 2, OrderStatus.paid, 10⟩ : Order) with
             status := OrderStatus.expired } ∧
    findOrder (processWebhook "t" ⟨"wh", some 0, XenditWebhookStatus.PENDING, none, none⟩ "t" 5
        ⟨3, true, none, [⟨0, "u", "u@example.com", none, 2, OrderStatus.paid, 10⟩],
         [⟨0, PaymentStatus.paid, some 1, some "VA"⟩], [], 1, 0⟩).st 0 =
      some { (⟨0, "u", "u@example.com", none, 2, OrderStatus.paid, 10⟩ : Order) with
             status := OrderStatus.pending } :=
  paid_absorbing_amended "t" "wh" none none 5 rfl rfl rfl (by decide)

/-- C5 counterexample: a PENDING webhook does not leave an awaiting_payment
order unchanged — the order's status is overwritten with pending. -/
theorem webhook_pending_demotes_awaiting_cex :
    ((⟨3, true, none, [⟨0, "u", "u@example.com", none, 2, OrderStatus.awaiting_payment, 10⟩],
       [⟨0, PaymentStatus.pending, none, none⟩], [], 1, 0⟩ : St).orders.map
      (fun o => o.status) = [OrderStatus.awaiting_payment]) ∧
    ((processWebhook "tok" ⟨"wh", some 0, XenditWebhookStatus.PENDING, none, none⟩ "tok" 5
        ⟨3, true, none, [⟨0, "u", "u@example.com", none, 2, OrderStatus.awaiting_payment, 10⟩],
         [⟨0, PaymentStatus.pending, none, none⟩], [], 1, 0⟩).st.orders.map
      (fun o => o.status) = [OrderStatus.pending]) := by decide

/-- C5 amended: a PENDING webhook refreshes only the linked payment's status
and performs no external side effects, leaves the quota and tickets alone,
and leaves a pending order unchanged (idempotency guard); an
awaiting_payment order, however, has its status overwritten with pending. -/
theorem webhook_pending_amended {s : St} {oid : Nat} {o : Order} {p : Payment}
    (tok pid : String) (pm : Option String) (pa : Option Nat) (now : Nat)
    (hO : findOrder s oid = some o) (hP : findPayment s oid = some p) :
    (processWebhook tok ⟨pid, some oid, XenditWebhookStatus.PENDING, pm, pa⟩ tok now
        s).eff = noEff ∧
    (processWebhook tok ⟨pid, some oid, XenditWebhookStatus.PENDING, pm, pa⟩ tok now
        s).st.quota = s.quota ∧
    (processWebhook tok ⟨pid, some oid, XenditWebhookStatus.PENDING, pm, pa⟩ tok now
        s).st.tickets = s.tickets ∧
    findPayment (processWebhook tok ⟨pid, some oid, XenditWebhookStatus.PENDING, pm, pa⟩ tok now
        s).st oid = some { p with status := PaymentStatus.pending } ∧
    (o.status = OrderStatus.pending →
      (processWebhook tok ⟨pid, some oid, XenditWebhookStatus.PENDING, pm, pa⟩ tok now
        s).st.orders = s.orders) ∧
    (o.status = OrderStatus.awaiting_payment →
      findOrder (processWebhook tok ⟨pid, some oid, XenditWebhookStatus.PENDING, pm, pa⟩ tok now
        s).st oid = some { o with status := OrderStatus.pending }) := by
  have hW := processWebhook_PENDING tok pid pm pa now hO hP
  refine ⟨?_, ?_, ?_, ?_, ?_, ?_⟩
  · rw [hW]
    split <;> rfl
  · rw [hW]
    split <;> rfl
  · rw [hW]
    split <;> rfl
  · rw [hW]
    by_cases hs : o.status = OrderStatus.pending
    · rw [if_pos hs]
      exact findPayment_savePayment_self _ hP (by show p.orderId = oid; exact findPayment_orderId hP)
    · rw [if_neg hs]
      show findPayment (saveOrder _ _) oid = _
      rw [findPayment_saveOrder]
      exact findPayment_savePayment_self _ hP (by show p.orderId = oid; exact findPayment_orderId hP)
  · intro hs
    rw [hW, if_pos hs]
    rfl
  · intro hs
    rw [hW, if_neg (by rw [hs]; simp)]
    exact @findOrder_saveOrder_self (savePayment s { p with status := PaymentStatus.pending })
      oid o { o with status := OrderStatus.pending }
      (by rw [findOrder_savePayment]; exact hO) (findOrder_id (o := o) hO)

/-- C5 amended witness: a concrete awaiting_payment order receiving a
PENDING webhook. -/
theorem webhook_pending_amended_witness :
    (processWebhook "t" ⟨"wh", some 0, XenditWebhookStatus.PENDING, none, none⟩ "t" 5
        ⟨3, true, none, [⟨0, "u", "u@example.com", none, 2, OrderStatus.awaiting_payment, 10⟩],
         [⟨0, PaymentStatus.pending, none, none⟩], [], 1, 0⟩).eff = noEff ∧
    (processWebhook "t" ⟨"wh", some 0, XenditWebhookStatus.PENDING, none, none⟩ "t" 5
        ⟨3, true, none, [⟨0, "u", "u@example.com", none, 2, OrderStatus.awaiting_payment, 10⟩],
         [⟨0, PaymentStatus.pending, none, none⟩], [], 1, 0⟩).st.quota =
      (⟨3, true, none, [⟨0, "u", "u@example.com", none, 2, OrderStatus.awaiting_payment, 10⟩],
        [⟨0, PaymentStatus.pending, none, none⟩], [], 1, 0⟩ : St).quota ∧
    (processWebhook "t" ⟨"wh", some 0, XenditWebhookStatus.PENDING, none, none⟩ "t" 5
        ⟨3, true, none, [⟨0, "u", "u@example.com", none, 2, OrderStatus.awaiting_payment, 10⟩],
         [⟨0, PaymentStatus.pending, none, none⟩], [], 1, 0⟩).st.tickets =
      (⟨3, true, none, [⟨0, "u", "u@example.com", none, 2, OrderStatus.awaiting_payment, 10⟩],
        [⟨0, PaymentStatus.pending, none, none⟩], [], 1, 0⟩ : St).tickets ∧
    findPayment (processWebhook "t" ⟨"wh", some 0, XenditWebhookStatus.PENDING, none, none⟩ "t" 5
        ⟨3, true, none, [⟨0, "u", "u@example.com", none, 2, OrderStatus.awaiting_payment, 10⟩],
         [⟨0, PaymentStatus.pending, none, none⟩], [], 1, 0⟩).st 0 =
      some { (⟨0, PaymentStatus.pending, none, none⟩ : Payment) with
             status := PaymentStatus.pending } ∧
    ((⟨0, "u", "u@example.com", none, 2, OrderStatus.awaiting_payment, 10⟩ : Order).status =
        OrderStatus.pending →
      (processWebhook "t" ⟨"wh", some 0, XenditWebhookStatus.PENDING, none, none⟩ "t" 5
        ⟨3, true, none, [⟨0, "u", "u@example.com", none, 2, OrderStatus.awaiting_payment, 10⟩],
         [⟨0, PaymentStatus.pending, none, none⟩], [], 1, 0⟩).st.orders =
        (⟨3, true, none, [⟨0, "u", "u@example.com", none, 2, OrderStatus.awaiting_payment, 10⟩],
          [⟨0, PaymentStatus.pending, none, none⟩], [], 1, 0⟩ : St).orders) ∧
    ((⟨0, "u", "u@example.com", none, 2, OrderStatus.awaiting_payment, 10⟩ : Order).status =
        OrderStatus.awaiting_payment →
      findOrder (processWebhook "t" ⟨"wh", some 0, XenditWebhookStatus.PENDING, none, none⟩ "t" 5
        ⟨3, true, none, [⟨0, "u", "u@example.com", none, 2, OrderStatus.awaiting_payment, 10⟩],
         [⟨0, PaymentStatus.pending, none, none⟩], [], 1, 0⟩).st 0 =
        some { (⟨0, "u", "u@example.com", none, 2, OrderStatus.awaiting_payment, 10⟩ : Order) with
               status := OrderStatus.pending }) :=
  webhook_pending_amended "t" "wh" none none 5 rfl rfl

/-- C10: a ticket can be checked in at most once — check-in succeeds exactly
on an active, not-yet-checked-in ticket, marking it checked in (time and
actor recorded) and flipping its status to used; a ticket already checked
in, used or cancelled is rejected with `BadRequest` and left unchanged. -/
theorem ticket_checkin_once {s : St} {tid : Nat} {t : Ticket} (actor : String) (now : Nat)
    (hT : findTicket s tid = some t) :
    (t.status = TicketStatus.active → t.checkedIn = false →
      checkInTicket tid actor now s =
        ⟨.ok { t with
            checkedIn := true, checkedInAt := some now,
            checkedInBy := some actor, status := TicketStatus.used },
         saveTicket s { t with
            checkedIn := true, checkedInAt := some now,
            checkedInBy := some actor, status := TicketStatus.used },
         noEff⟩) ∧
    (t.checkedIn = true ∨ t.status ≠ TicketStatus.active →
      resultIsBadRequest (checkInTicket tid actor now s).result = true ∧
      (checkInTicket tid actor now s).st = s ∧ (checkInTicket tid actor now s).eff = noEff) := by
  constructor
  · intro hst hci
    have hv : validateTicket s tid = ValidateOutcome.valid := by
      unfold validateTicket
      rw [hT]
      dsimp only
      rw [if_neg (by rw [hst]; exact fun hc => hc rfl), if_neg (by rw [hci]; simp)]
    unfold checkInTicket
    rw [hv, if_neg (fun hc => hc rfl), hT]
  · intro hbad
    have hv : validateTicket s tid ≠ ValidateOutcome.valid := by
      unfold validateTicket
      rw [hT]
      dsimp only
      by_cases hst : t.status = TicketStatus.active
      · have hci : t.checkedIn = true := by
          rcases hbad with h | h
          · exact h
          · exact absurd hst h
        rw [if_neg (by rw [hst]; exact fun hc => hc rfl), if_pos (by rw [hci])]
        exact fun hc => ValidateOutcome.noConfusion hc
      · rw [if_pos hst]
        exact fun hc => ValidateOutcome.noConfusion hc
    unfold checkInTicket
    rw [if_pos hv]
    exact ⟨rfl, rfl, rfl⟩

/-- C10 witness: a concrete active ticket (success) and the failure clause
vacuously instantiated on the same ticket. -/
theorem ticket_checkin_once_witness :
    ((⟨7, 7, "A1-1", 0, none, some "u@example.com", TicketStatus.active, false, none, none,
        some "qr-7.png", some "ticket-7.pdf", none, none, some 2⟩ : Ticket).status =
        TicketStatus.active →
      (⟨7, 7, "A1-1", 0, none, some "u@example.com", TicketStatus.active, false, none, none,
        some "qr-7.png", some "ticket-7.pdf", none, none, some 2⟩ : Ticket).checkedIn = false →
      checkInTicket 7 "staff" 9
        ⟨3, true, none, [⟨0, "u", "u@example.com", none, 1, OrderStatus.paid, 10⟩],
         [⟨0, PaymentStatus.paid, some 1, some "VA"⟩],
         [⟨7, 7, "A1-1", 0, none, some "u@example.com", TicketStatus.active, false, none, none,
           some "qr-7.png", some "ticket-7.pdf", none, none, some 2⟩], 1, 8⟩ =
        ⟨.ok { (⟨7, 7, "A1-1", 0, none, some "u@example.com", TicketStatus.active, false, none,
                 none, some "qr-7.png", some "ticket-7.pdf", none, none, some 2⟩ : Ticket) with
               checkedIn := true, checkedInAt := some 9,
               checkedInBy := some "staff", status := TicketStatus.used },
         saveTicket
           ⟨3, true, none, [⟨0, "u", "u@example.com", none, 1, OrderStatus.paid, 10⟩],
            [⟨0, PaymentStatus.paid, some 1, some "VA"⟩],
            [⟨7, 7, "A1-1", 0, none, some "u@example.com", TicketStatus.active, false, none, none,
              some "qr-7.png", some "ticket-7.pdf", none, none, some 2⟩], 1, 8⟩
           { (⟨7, 7, "A1-1", 0, none, some "u@example.com", TicketStatus.active, false, none,
               none, some "qr-7.png", some "ticket-7.pdf", none, none, some 2⟩ : Ticket) with
             checkedIn := true, checkedInAt := some 9,
             checkedInBy := some "staff", status := TicketStatus.used },
         noEff⟩) ∧
    ((⟨7, 7, "A1-1", 0, none, some "u@example.com", TicketStatus.active, false, none, none,
        some "qr-7.png", some "ticket-7.pdf", none, none, some 2⟩ : Ticket).checkedIn = true ∨
      (⟨7, 7, "A1-1", 0, none, some "u@example.com", TicketStatus.active, false, none, none,
        some "qr-7.png", some "ticket-7.pdf", none, none, some 2⟩ : Ticket).status ≠
        TicketStatus.active →
      resultIsBadRequest (checkInTicket 7 "staff" 9
        ⟨3, true, none, [⟨0, "u", "u@example.com", none, 1, OrderStatus.paid, 10⟩],
         [⟨0, PaymentStatus.paid, some 1, some "VA"⟩],
         [⟨7, 7, "A1-1", 0, none, some "u@example.com", TicketStatus.active, false, none, none,
           some "qr-7.png", some "ticket-7.pdf", none, none, some 2⟩], 1, 8⟩).result = true ∧
      (checkInTicket 7 "staff" 9
        ⟨3, true, none, [⟨0, "u", "u@example.com", none, 1, OrderStatus.paid, 10⟩],
         [⟨0, PaymentStatus.paid, some 1, some "VA"⟩],
         [⟨7, 7, "A1-1", 0, none, some "u@example.com", TicketStatus.active, false, none, none,
           some "qr-7.png", some "ticket-7.pdf", none, none, some 2⟩], 1, 8⟩).st =
        ⟨3, true, none, [⟨0, "u", "u@example.com", none, 1, OrderStatus.paid, 10⟩],
         [⟨0, PaymentStatus.paid, some 1, some "VA"⟩],
         [⟨7, 7, "A1-1", 0, none, some "u@example.com", TicketStatus.active, false, none, none,
           some "qr-7.png", some "ticket-7.pdf", none, none, some 2⟩], 1, 8⟩ ∧
      (checkInTicket 7 "staff" 9
        ⟨3, true, none, [⟨0, "u", "u@example.com", none, 1, OrderStatus.paid, 10⟩],
         [⟨0, PaymentStatus.paid, some 1, some "VA"⟩],
         [⟨7, 7, "A1-1", 0, none, some "u@example.com", TicketStatus.active, false, none, none,
           some "qr-7.png", some "ticket-7.pdf", none, none, some 2⟩], 1, 8⟩).eff = noEff) :=
  @ticket_checkin_once
    ⟨3, true, none, [⟨0, "u", "u@example.com", none, 1, OrderStatus.paid, 10⟩],
     [⟨0, PaymentStatus.paid, some 1, some "VA"⟩],
     [⟨7, 7, "A1-1", 0, none, some "u@example.com", TicketStatus.active, false, none, none,
       some "qr-7.png", some "ticket-7.pdf", none, none, some 2⟩], 1, 8⟩ 7
    ⟨7, 7, "A1-1", 0, none, some "u@example.com", TicketStatus.active, false, none, none,
     some "qr-7.png", some "ticket-7.pdf", none, none, some 2⟩ "staff" 9 rfl

end EventTickets
